import Mathlib

/-! Lyra native decode bridge: shallow embedding and checked properties.

Embedding of `native/OpenJPEGWrapper/j2k_native.cpp`, `native/HDRWrapper/hdr_native.cpp`
and `native/OpenEXRWrapper/exr_native.cpp`.

Conventions of the embedding

* `int` is the 32-bit two's-complement integer: every `int` operation of the source is
  followed by `wrap32`.  Signed overflow is undefined behaviour in C++; the embedding gives
  it the wrap-around result that the usual targets produce.
* `OPJ_UINT32`, `size_t` and pointers are natural numbers; the null pointer is `0`.
* A byte range `(data, size)` is the list of its bytes, `size` being the length.
* A sample array `comp.data` is the list of its entries.  Reading outside the array is
  undefined behaviour in C++; `read_sample` returns `0` there.
-/

namespace Lyra

/-! ## Machine integers -/

/-- Largest value of the 32-bit `int`. -/
def INT_MAX : Int := 2147483647

/-- Reduction of a mathematical integer to the 32-bit two's-complement `int`. -/
def wrap32 (z : Int) : Int := (z + 2147483648) % 4294967296 - 2147483648

/-- The conversion `(int) u` of an `OPJ_UINT32`. -/
def u32_to_int (u : Nat) : Int := wrap32 (u : Int)

/-- The conversion `(OPJ_UINT32) i` of an `int`. -/
def int_to_u32 (i : Int) : Nat := (i % 4294967296).toNat

/-- The conversion `(size_t) i` of an `int` (64-bit `size_t`). -/
def int_to_size (i : Int) : Nat := (i % 18446744073709551616).toNat

/-- The conversion `(uint8_t) i` of an `int`. -/
def int_to_u8 (i : Int) : Nat := (i % 256).toNat

/-- The `int` product `a * b`. -/
def mul32 (a b : Int) : Int := wrap32 (a * b)

/-- The `int` sum `a + b`. -/
def add32 (a b : Int) : Int := wrap32 (a + b)

/-- The `int` difference `a - b`. -/
def sub32 (a b : Int) : Int := wrap32 (a - b)

/-- The `int` quotient `a / b`: C++ division truncates toward zero. -/
def div32 (a b : Int) : Int := wrap32 (Int.tdiv a b)

/-- The `int` shift `a << n`, for a shift count `0 ≤ n < 32`. -/
def shl32 (a n : Int) : Int := wrap32 (a * 2 ^ n.toNat)

/-! ## OpenJPEG image types (fields used by the wrapper) -/

/-- Component of a decoded image, `opj_image_comp_t`: the fields read by the wrapper. -/
structure opj_image_comp_t where
  /-- horizontal subsampling factor (`OPJ_UINT32`) -/
  dx : Nat
  /-- vertical subsampling factor (`OPJ_UINT32`) -/
  dy : Nat
  /-- width of the sample array (`OPJ_UINT32`) -/
  w : Nat
  /-- height of the sample array (`OPJ_UINT32`) -/
  h : Nat
  /-- declared precision in bits (`OPJ_UINT32`) -/
  prec : Nat
  /-- signedness flag (`OPJ_UINT32`): nonzero for signed samples -/
  sgnd : Nat
  /-- sample array (`OPJ_INT32 *`), row-major -/
  data : List Int
deriving DecidableEq, Repr, Inhabited

/-- Decoded image, `opj_image_t`: the fields read by the wrapper. -/
structure opj_image_t where
  x0 : Nat
  y0 : Nat
  x1 : Nat
  y1 : Nat
  numcomps : Nat
  comps : List opj_image_comp_t
deriving DecidableEq, Repr, Inhabited

/-! ## Format sniffer (`j2k_native.cpp` 42-58) -/

/-- Embedding of `is_jp2(data, size)`. -/
def is_jp2 (data : List Nat) : Bool :=
  let size := data.length
  if size < 12 then false
  else
    data.getD 0 0 == 0x00 && data.getD 1 0 == 0x00 && data.getD 2 0 == 0x00 &&
    data.getD 3 0 == 0x0C && data.getD 4 0 == 0x6A && data.getD 5 0 == 0x50 &&
    data.getD 6 0 == 0x20 && data.getD 7 0 == 0x20 && data.getD 8 0 == 0x0D &&
    data.getD 9 0 == 0x0A && data.getD 10 0 == 0x87 && data.getD 11 0 == 0x0A

/-- Embedding of `is_j2k_codestream(data, size)`. -/
def is_j2k_codestream (data : List Nat) : Bool :=
  let size := data.length
  if size < 2 then false
  else data.getD 0 0 == 0xFF && data.getD 1 0 == 0x4F

/-- The 12-byte JP2 signature box. -/
def JP2_SIGNATURE : List Nat :=
  [0x00, 0x00, 0x00, 0x0C, 0x6A, 0x50, 0x20, 0x20, 0x0D, 0x0A, 0x87, 0x0A]

/-- The 2-byte start-of-codestream marker. -/
def SOC_MARKER : List Nat := [0xFF, 0x4F]

/-- Container classes told apart by the sniffer. -/
inductive Container where
  | jp2_boxed
  | raw_codestream
  | unrecognized
deriving DecidableEq, Repr

/-- Classification made by `decode_j2k_rgba8_from_memory` (lines 193-200): the signature
mismatch exit when neither predicate holds, else the JP2 codec when `is_jp2`, else the J2K
codec. -/
def classify (data : List Nat) : Container :=
  let jp2 := is_jp2 data
  let j2k := is_j2k_codestream data
  if !jp2 && !j2k then Container.unrecognized
  else if jp2 then Container.jp2_boxed else Container.raw_codestream

/-! ## Bit-depth rescale (`j2k_native.cpp` 132-175) -/

/-- Embedding of `clamp_int`. -/
def clamp_int (v lo hi : Int) : Int :=
  if v < lo then lo
  else if v > hi then hi
  else v

/-- Embedding of `struct ScaleParams`, with its default member initialisers. -/
structure ScaleParams where
  prec : Int := 8
  sgnd : Bool := false
  maxv : Int := 255
deriving DecidableEq, Repr, Inhabited

/-- Embedding of `make_scale_params`. -/
def make_scale_params (comp : opj_image_comp_t) : ScaleParams :=
  let prec := u32_to_int comp.prec
  let sgnd := comp.sgnd != 0
  if prec ≤ 0 then
    { prec := 8, sgnd := sgnd, maxv := 255 }
  else if prec ≥ 31 then
    { prec := 30, sgnd := sgnd, maxv := sub32 (shl32 1 30) 1 }
  else
    let maxv := sub32 (shl32 1 prec) 1
    if maxv ≤ 0 then { prec := prec, sgnd := sgnd, maxv := 255 }
    else { prec := prec, sgnd := sgnd, maxv := maxv }

/-- Embedding of `scale_to_u8`. -/
def scale_to_u8 (sample : Int) (p : ScaleParams) : Nat :=
  let v := if p.sgnd then add32 sample (shl32 1 (sub32 p.prec 1)) else sample
  let out := div32 (add32 (mul32 v 255) (div32 p.maxv 2)) p.maxv
  let out := if out < 0 then 0 else out
  let out := if out > 255 then 255 else out
  int_to_u8 out

/-- The rescale as the specification words it, in exact integer arithmetic:
`(v * 255 + maxValue / 2) div maxValue` clamped to `[0, 255]`, with `maxValue = 2 ^ p - 1`
and `v` the sample biased by `2 ^ (p - 1)` when signed. -/
def scaleToByte_spec (sample : Int) (p : Nat) (sgnd : Bool) : Int :=
  let maxValue : Int := 2 ^ p - 1
  let v : Int := if sgnd then sample + 2 ^ (p - 1) else sample
  max 0 (min 255 ((v * 255 + maxValue / 2) / maxValue))

/-- Component descriptor with declared precision `prec` and signedness `sgnd`; the other
fields play no part in the rescale. -/
def comp_of_prec (prec : Nat) (sgnd : Bool) : opj_image_comp_t :=
  { dx := 1, dy := 1, w := 1, h := 1, prec := prec, sgnd := if sgnd then 1 else 0, data := [] }

/-! ## Component normalizer (`j2k_native.cpp` 286-437) -/

/-- The read `data[i]` of a sample array at an index computed by the code. -/
def read_sample (data : List Int) (i : Int) : Int :=
  if i < 0 then 0 else data.getD i.toNat 0

/-- The access `image->comps[i]`. -/
def comp_at (image : opj_image_t) (i : Nat) : opj_image_comp_t :=
  image.comps.getD i default

/-- The component count `comps = image->numcomps`, converted to `int`. -/
def comps_of (image : opj_image_t) : Int := u32_to_int image.numcomps

/-- The alpha component pointer `cap` (lines 286-293): component 1 of a 2-component image,
component 3 of an image with 4 or more components, null otherwise. -/
def alpha_comp (image : opj_image_t) : Option opj_image_comp_t :=
  if comps_of image == 2 then some (comp_at image 1)
  else if comps_of image ≥ 4 then some (comp_at image 3)
  else none

/-- The test `is_gray` (line 299). -/
def is_gray (image : opj_image_t) : Bool :=
  comps_of image == 1 || comps_of image == 2

/-- Embedding of the lambda `full_res` (lines 295-297) for output size `w`, `h`. -/
def full_res (w h : Int) (c : opj_image_comp_t) : Bool :=
  c.dx == 1 && c.dy == 1 && c.w == int_to_u32 w && c.h == int_to_u32 h

/-- The path selection `fast_path` (lines 300-308). -/
def fast_path (image : opj_image_t) (w h : Int) : Bool :=
  if is_gray image then
    full_res w h (comp_at image 0) &&
      (match alpha_comp image with
       | some c => full_res w h c
       | none => true)
  else
    decide (comps_of image ≥ 3) && full_res w h (comp_at image 0) &&
      full_res w h (comp_at image 1) && full_res w h (comp_at image 2) &&
      (match alpha_comp image with
       | some c => full_res w h c
       | none => true)

/-- Embedding of the lambda `sample_comp_u8` (lines 311-322). -/
def sample_comp_u8 (comp : opj_image_comp_t) (sp : ScaleParams) (x y : Int) : Nat :=
  let dx := if comp.dx > 0 then u32_to_int comp.dx else 1
  let dy := if comp.dy > 0 then u32_to_int comp.dy else 1
  let cx := div32 x dx
  let cy := div32 y dy
  let cx := clamp_int cx 0 (sub32 (u32_to_int comp.w) 1)
  let cy := clamp_int cy 0 (sub32 (u32_to_int comp.h) 1)
  let idx := add32 (mul32 cy (u32_to_int comp.w)) cx
  scale_to_u8 (read_sample comp.data idx) sp

/-- The read `row[x]` of the fast path, where `row = comp.data + y * (int) comp.w`: the row
offset is an `int` product, the element offset is added by pointer arithmetic. -/
def fast_sample_u8 (comp : opj_image_comp_t) (sp : ScaleParams) (x y : Int) : Nat :=
  scale_to_u8 (read_sample comp.data (mul32 y (u32_to_int comp.w) + x)) sp

/-- The values taken by a loop variable `for (int i = 0; i < n; ++i)`. -/
def loop_range (n : Int) : List Int := (List.range n.toNat).map Int.ofNat

/-- The four bytes written for pixel `(x, y)` by the fast path (lines 326-388). -/
def fast_pixel (image : opj_image_t) (x y : Int) : List Nat :=
  if is_gray image then
    let cg := comp_at image 0
    let spg := make_scale_params cg
    let g := fast_sample_u8 cg spg x y
    let a := match alpha_comp image with
      | some cap => fast_sample_u8 cap (make_scale_params cap) x y
      | none => 255
    [g, g, g, a]
  else
    let cr := comp_at image 0
    let cg := comp_at image 1
    let cb := comp_at image 2
    let r := fast_sample_u8 cr (make_scale_params cr) x y
    let g := fast_sample_u8 cg (make_scale_params cg) x y
    let b := fast_sample_u8 cb (make_scale_params cb) x y
    let a := match alpha_comp image with
      | some cap => fast_sample_u8 cap (make_scale_params cap) x y
      | none => 255
    [r, g, b, a]

/-- The four bytes written for pixel `(x, y)` by the slow path (lines 391-436). -/
def slow_pixel (image : opj_image_t) (x y : Int) : List Nat :=
  if is_gray image then
    let cg := comp_at image 0
    let spg := make_scale_params cg
    let g := sample_comp_u8 cg spg x y
    let a := match alpha_comp image with
      | some cap => sample_comp_u8 cap (make_scale_params cap) x y
      | none => 255
    [g, g, g, a]
  else
    let cr := comp_at image 0
    let cg := comp_at image 1
    let cb := comp_at image 2
    let r := sample_comp_u8 cr (make_scale_params cr) x y
    let g := sample_comp_u8 cg (make_scale_params cg) x y
    let b := sample_comp_u8 cb (make_scale_params cb) x y
    let a := match alpha_comp image with
      | some cap => sample_comp_u8 cap (make_scale_params cap) x y
      | none => 255
    [r, g, b, a]

/-- The bytes written by the two nested loops over `y < h`, `x < w`, in the order written:
row `y` goes to `buffer + y * stride`, pixel `x` of the row to `out[x * 4 + 0 .. 3]`. -/
def write_pixels (px : Int → Int → List Nat) (w h : Int) : List Nat :=
  (loop_range h).flatMap (fun y => (loop_range w).flatMap (fun x => px x y))

/-- Fast-path normalization (lines 324-388): the RGBA8 buffer contents. -/
def normalize_fast (image : opj_image_t) (w h : Int) : List Nat :=
  write_pixels (fast_pixel image) w h

/-- Slow-path normalization (lines 389-437): the RGBA8 buffer contents. -/
def normalize_slow (image : opj_image_t) (w h : Int) : List Nat :=
  write_pixels (slow_pixel image) w h

/-- The normalizer of `decode_j2k_rgba8_from_memory` (lines 286-437). -/
def normalize_rgba8 (image : opj_image_t) (w h : Int) : List Nat :=
  if fast_path image w h then normalize_fast image w h else normalize_slow image w h

/-! ## Process state: error slots and allocation registries -/

/-- Line printed on standard output by the wrappers. -/
inductive Diagnostic where
  /-- Printed as "Warning: free_..._pixels called with null pointer!" -/
  | null_pointer (fn : String)
  /-- Printed as "Warning: Attempting to free unknown or already freed pointer %p!" -/
  | unknown_pointer (ptr : Nat)
  /-- Printed as "[EXR] Using %u threads for OpenEXR" by the one-time initialisation -/
  | exr_threads (n : Nat)
deriving DecidableEq, Repr

/-- The static state of the three wrappers as seen by one calling thread, together with
the observable effects on the C runtime: the arguments of the calls to `free`, in order, and
the diagnostics printed. -/
structure NativeState where
  /-- `last_j2k_error`, the calling thread's slot (a NUL-terminated `char[512]`) -/
  last_j2k_error : String := ""
  /-- `j2k_allocated_ptrs` -/
  j2k_allocated_ptrs : Finset Nat := ∅
  /-- `last_hdr_error` -/
  last_hdr_error : String := ""
  /-- `hdr_allocated_ptrs` -/
  hdr_allocated_ptrs : Finset Nat := ∅
  /-- `last_exr_error` -/
  last_exr_error : String := ""
  /-- `exr_allocated_ptrs` -/
  exr_allocated_ptrs : Finset Nat := ∅
  /-- arguments of the calls to `free`, oldest first -/
  freed : List Nat := []
  /-- diagnostics printed, oldest first -/
  stdout : List Diagnostic := []
  /-- `exr_init_flag`, the once-flag of `load_exr_rgba`: true once the thread count is set -/
  exr_init_flag : Bool := false
deriving DecidableEq

/-- The text left in a 512-byte slot by `snprintf(slot, 512, ...)`: at most 511 characters. -/
def snprintf512 (text : String) : String := String.mk (text.data.take 511)

/-- Embedding of `free_j2k_pixels` (`j2k_native.cpp` 451-467). -/
def free_j2k_pixels (s : NativeState) (ptr : Nat) : NativeState :=
  if ptr = 0 then
    { s with stdout := s.stdout ++ [Diagnostic.null_pointer "free_j2k_pixels"] }
  else if ptr ∉ s.j2k_allocated_ptrs then
    { s with stdout := s.stdout ++ [Diagnostic.unknown_pointer ptr] }
  else
    { s with j2k_allocated_ptrs := s.j2k_allocated_ptrs.erase ptr, freed := s.freed ++ [ptr] }

/-- Embedding of `free_hdr_pixels` (`hdr_native.cpp` 94-111). -/
def free_hdr_pixels (s : NativeState) (ptr : Nat) : NativeState :=
  if ptr = 0 then
    { s with stdout := s.stdout ++ [Diagnostic.null_pointer "free_hdr_pixels"] }
  else if ptr ∉ s.hdr_allocated_ptrs then
    { s with stdout := s.stdout ++ [Diagnostic.unknown_pointer ptr] }
  else
    { s with hdr_allocated_ptrs := s.hdr_allocated_ptrs.erase ptr, freed := s.freed ++ [ptr] }

/-- Embedding of `free_exr_pixels` (`exr_native.cpp` 84-101). -/
def free_exr_pixels (s : NativeState) (ptr : Nat) : NativeState :=
  if ptr = 0 then
    { s with stdout := s.stdout ++ [Diagnostic.null_pointer "free_exr_pixels"] }
  else if ptr ∉ s.exr_allocated_ptrs then
    { s with stdout := s.stdout ++ [Diagnostic.unknown_pointer ptr] }
  else
    { s with exr_allocated_ptrs := s.exr_allocated_ptrs.erase ptr, freed := s.freed ++ [ptr] }

/-! ## JP2/J2K decode orchestrator (`j2k_native.cpp` 25-40, 182-449) -/

/-- Embedding of `set_error`; `none` is the null message. -/
def set_error (s : NativeState) (msg : Option String) : NativeState :=
  let msg := match msg with
    | none => "Unknown error."
    | some m => m
  { s with last_j2k_error := snprintf512 msg }

/-- Embedding of `clear_error`. -/
def clear_error (s : NativeState) : NativeState :=
  { s with last_j2k_error := "" }

/-- Embedding of `opj_error_callback`; `none` is the null message. -/
def opj_error_callback (s : NativeState) (msg : Option String) : NativeState :=
  match msg with
  | none => s
  | some m => { s with last_j2k_error := snprintf512 ("OpenJPEG: " ++ m) }

/-- Calls made by the orchestrator to the OpenJPEG library and to `malloc`. -/
inductive ExtCall where
  | opj_create_decompress (jp2 : Bool)
  | opj_set_error_handler
  | opj_set_warning_handler
  | opj_set_info_handler
  | opj_set_default_decoder_parameters
  | opj_setup_decoder (cp_reduce : Int)
  | opj_stream_create (bufSize : Nat)
  | opj_stream_set_user_data
  | opj_stream_set_user_data_length (size : Nat)
  | opj_stream_set_read_function
  | opj_stream_set_skip_function
  | opj_stream_set_seek_function
  | opj_read_header
  | opj_decode
  | opj_image_destroy
  | opj_stream_destroy
  | opj_destroy_codec
  | malloc (bytes : Nat)
deriving DecidableEq, Repr

/-- What the external collaborators answer during one call of the orchestrator: the
OpenJPEG library (a black box for the wrapper) and the allocator.  Each `..._errors` field
lists the messages the library passes to the installed error callback during that call. -/
structure OpjExternal where
  /-- `opj_create_decompress` returns a non-null codec -/
  create_decompress_ok : Bool
  /-- result of `opj_setup_decoder` -/
  setup_decoder_ok : Bool
  setup_decoder_errors : List (Option String)
  /-- `opj_stream_create` returns a non-null stream -/
  stream_create_ok : Bool
  /-- result of `opj_read_header` -/
  read_header_ok : Bool
  read_header_errors : List (Option String)
  /-- `opj_read_header` stored a non-null image -/
  header_image_ok : Bool
  /-- result of `opj_decode` -/
  decode_ok : Bool
  decode_errors : List (Option String)
  /-- the image as it stands after `opj_decode` -/
  image : opj_image_t
  /-- `malloc`: the pointer returned for a request of the given size, `0` on failure -/
  malloc : Nat → Nat

/-- Arguments of `decode_j2k_rgba8_from_memory`.  `data = none` is a null `data`; each
output parameter is `none` when the pointer is null and `some v` when it points to a
location holding `v`. -/
structure DecodeArgs where
  data : Option (List Nat)
  reduce : Int
  out_pixels : Option Nat
  width : Option Int
  height : Option Int
  stride_bytes : Option Int

/-- Outcome of one call of `decode_j2k_rgba8_from_memory`. -/
structure DecodeResult where
  /-- the returned `bool` -/
  ret : Bool
  /-- the static state after the call -/
  state : NativeState
  /-- the location `*out_pixels` after the call -/
  out_pixels : Option Nat
  /-- the location `*width` after the call -/
  width : Option Int
  /-- the location `*height` after the call -/
  height : Option Int
  /-- the location `*stride_bytes` after the call -/
  stride_bytes : Option Int
  /-- the external calls made, oldest first -/
  calls : List ExtCall
  /-- the bytes written into the allocated buffer, in the order written -/
  pixels : List Nat

/-- The calls made by `create_mem_stream` after a successful `opj_stream_create`. -/
def mem_stream_setup_calls (size : Nat) : List ExtCall :=
  [ExtCall.opj_stream_set_user_data, ExtCall.opj_stream_set_user_data_length size,
   ExtCall.opj_stream_set_read_function, ExtCall.opj_stream_set_skip_function,
   ExtCall.opj_stream_set_seek_function]

/-- The calls up to and including `opj_setup_decoder`. -/
def codec_setup_calls (jp2 : Bool) (reduce : Int) : List ExtCall :=
  [ExtCall.opj_create_decompress jp2, ExtCall.opj_set_error_handler,
   ExtCall.opj_set_warning_handler, ExtCall.opj_set_info_handler,
   ExtCall.opj_set_default_decoder_parameters, ExtCall.opj_setup_decoder reduce]

/-- Embedding of `decode_j2k_rgba8_from_memory`, for the answers `ext` of the external
collaborators and the static state `s` at entry. -/
def decode_j2k_rgba8_from_memory (ext : OpjExternal) (s : NativeState) (a : DecodeArgs) :
    DecodeResult :=
  let fail (s : NativeState) (calls : List ExtCall) (msg : String) : DecodeResult :=
    { ret := false, state := set_error s (some msg), out_pixels := some 0, width := some 0,
      height := some 0, stride_bytes := some 0, calls := calls, pixels := [] }
  match a.data with
  | none =>
    { ret := false, state := set_error s (some "Invalid arguments."),
      out_pixels := a.out_pixels, width := a.width, height := a.height,
      stride_bytes := a.stride_bytes, calls := [], pixels := [] }
  | some data =>
    let size := data.length
    if size == 0 || a.out_pixels.isNone || a.width.isNone || a.height.isNone ||
        a.stride_bytes.isNone then
      { ret := false, state := set_error s (some "Invalid arguments."),
        out_pixels := a.out_pixels, width := a.width, height := a.height,
        stride_bytes := a.stride_bytes, calls := [], pixels := [] }
    else
      let s := clear_error s
      let jp2 := is_jp2 data
      let j2k := is_j2k_codestream data
      if !jp2 && !j2k then
        fail s [] "Input is not JP2 or J2K codestream (signature mismatch)."
      else
        let calls := [ExtCall.opj_create_decompress jp2]
        if !ext.create_decompress_ok then
          fail s calls "Failed to create OpenJPEG decompressor."
        else
          let reduce := if a.reduce < 0 then 0 else a.reduce
          let calls := codec_setup_calls jp2 reduce
          let s := ext.setup_decoder_errors.foldl opj_error_callback s
          if !ext.setup_decoder_ok then
            fail s (calls ++ [ExtCall.opj_destroy_codec]) "opj_setup_decoder failed."
          else
            let calls := calls ++ [ExtCall.opj_stream_create (64 * 1024)]
            if !ext.stream_create_ok then
              fail s (calls ++ [ExtCall.opj_destroy_codec])
                "Failed to create OpenJPEG memory stream."
            else
              let calls := calls ++ mem_stream_setup_calls size ++ [ExtCall.opj_read_header]
              let s := ext.read_header_errors.foldl opj_error_callback s
              if !ext.read_header_ok || !ext.header_image_ok then
                fail s (calls ++ [ExtCall.opj_stream_destroy, ExtCall.opj_destroy_codec])
                  "opj_read_header failed."
              else
                let calls := calls ++ [ExtCall.opj_decode]
                let s := ext.decode_errors.foldl opj_error_callback s
                let cleanup := [ExtCall.opj_image_destroy, ExtCall.opj_stream_destroy,
                  ExtCall.opj_destroy_codec]
                if !ext.decode_ok then
                  fail s (calls ++ cleanup) "opj_decode failed."
                else
                  let image := ext.image
                  let w := u32_to_int (int_to_u32 ((image.x1 : Int) - (image.x0 : Int)))
                  let h := u32_to_int (int_to_u32 ((image.y1 : Int) - (image.y0 : Int)))
                  if w ≤ 0 || h ≤ 0 then
                    fail s (calls ++ cleanup) "Decoded image has invalid dimensions."
                  else if comps_of image < 1 then
                    fail s (calls ++ cleanup) "Decoded image has no components."
                  else
                    let stride := mul32 w 4
                    let bytes := (int_to_size stride * int_to_size h) % 18446744073709551616
                    let buffer := ext.malloc bytes
                    let calls := calls ++ [ExtCall.malloc bytes]
                    if buffer = 0 then
                      fail s (calls ++ cleanup) "Failed to allocate RGBA8 output buffer."
                    else
                      let s := { s with j2k_allocated_ptrs := insert buffer s.j2k_allocated_ptrs }
                      { ret := true, state := clear_error s, out_pixels := some buffer,
                        width := some w, height := some h, stride_bytes := some stride,
                        calls := calls ++ cleanup, pixels := normalize_rgba8 image w h }

/-! ## The three codec families -/

/-- The codec families, one allocation registry each. -/
inductive Family where
  | j2k
  | hdr
  | exr
deriving DecidableEq, Repr

/-- The allocation registry of a family. -/
def registry (f : Family) (s : NativeState) : Finset Nat :=
  match f with
  | Family.j2k => s.j2k_allocated_ptrs
  | Family.hdr => s.hdr_allocated_ptrs
  | Family.exr => s.exr_allocated_ptrs

/-- The free entry point of a family. -/
def free_pixels (f : Family) (s : NativeState) (ptr : Nat) : NativeState :=
  match f with
  | Family.j2k => free_j2k_pixels s ptr
  | Family.hdr => free_hdr_pixels s ptr
  | Family.exr => free_exr_pixels s ptr

/-! ## Reading the output buffer -/

/-- The four bytes of pixel `(x, y)` in a tightly packed RGBA8 buffer of width `w`: the
bytes at `buffer + y * stride + x * 4`, with `stride = w * 4`. -/
def pixel_at (buf : List Nat) (w x y : Nat) : List Nat :=
  (buf.drop (4 * (y * w + x))).take 4

/-- The sample `c.data[i]` as a byte value. -/
def sample_byte (c : opj_image_comp_t) (i : Nat) : Nat := (c.data.getD i 0).toNat

/-- A full-resolution 8-bit unsigned component of a `w` by `h` image: precision 8, unsigned,
no subsampling, `w * h` samples, every sample in `[0, 255]`. -/
def rgb8_comp (w h : Nat) (c : opj_image_comp_t) : Prop :=
  c.prec = 8 ∧ c.sgnd = 0 ∧ c.dx = 1 ∧ c.dy = 1 ∧ c.w = w ∧ c.h = h ∧
    c.data.length = w * h ∧ ∀ v ∈ c.data, 0 ≤ v ∧ v ≤ 255

instance (w h : Nat) (c : opj_image_comp_t) : Decidable (rgb8_comp w h c) := by
  unfold rgb8_comp; infer_instance

/-! ## Concrete inputs -/

/-- A 2 by 2 full-resolution 8-bit unsigned component with the given samples. -/
def plane_2x2 (samples : List Int) : opj_image_comp_t :=
  { dx := 1, dy := 1, w := 2, h := 2, prec := 8, sgnd := 0, data := samples }

/-- A 2 by 2 RGB image whose pixels are red, green, blue and white. -/
def image_2x2_rgb : opj_image_t :=
  { x0 := 0, y0 := 0, x1 := 2, y1 := 2, numcomps := 3,
    comps := [plane_2x2 [255, 0, 0, 255], plane_2x2 [0, 255, 0, 255],
      plane_2x2 [0, 0, 255, 255]] }

/-- A state with two live HDR buffers and one live J2K buffer. -/
def state_three_buffers : NativeState :=
  { hdr_allocated_ptrs := {4096, 8192}, j2k_allocated_ptrs := {12288} }

/-- Collaborators that would decode `image_2x2_rgb` into a buffer at address 4096. -/
def external_2x2 : OpjExternal :=
  { create_decompress_ok := true, setup_decoder_ok := true, setup_decoder_errors := [],
    stream_create_ok := true, read_header_ok := true, read_header_errors := [],
    header_image_ok := true, decode_ok := true, decode_errors := [],
    image := image_2x2_rgb, malloc := fun _ => 4096 }

/-- A call whose input starts with the PNG magic bytes, with all output parameters set. -/
def args_png : DecodeArgs :=
  { data := some [0x89, 0x50, 0x4E, 0x47], reduce := 0, out_pixels := some 7,
    width := some 7, height := some 7, stride_bytes := some 7 }


/-! ## Slow-path index and channel mapping -/

/-- The index `idx` at which `sample_comp_u8` reads `comp.data` (lines 312-320). -/
def sample_comp_idx (comp : opj_image_comp_t) (x y : Int) : Int :=
  let dx := if comp.dx > 0 then u32_to_int comp.dx else 1
  let dy := if comp.dy > 0 then u32_to_int comp.dy else 1
  let cx := div32 x dx
  let cy := div32 y dy
  let cx := clamp_int cx 0 (sub32 (u32_to_int comp.w) 1)
  let cy := clamp_int cy 0 (sub32 (u32_to_int comp.h) 1)
  add32 (mul32 cy (u32_to_int comp.w)) cx

/-- The sampled coordinate as the specification words it: the output coordinate `v`
divided by the subsample factor `d` (a factor of 0 treated as 1, integer division), clamped
to the last coordinate `n - 1` of a component of extent `n`. -/
def clamped_coord_spec (v : Int) (d n : Nat) : Int :=
  min (v / (((if d = 0 then 1 else d) : Nat) : Int)) ((n : Int) - 1)

/-- The channel mapping as the specification words it, for a function `s` giving the
scaled sample of a component at the current pixel: R, G, B are all `s` of component 0 for
1 or 2 components and `s` of components 0, 1, 2 otherwise; alpha is `s` of component 1 for
exactly 2 components, `s` of component 3 for 4 or more, and 255 otherwise. -/
def channel_map_spec (s : opj_image_comp_t → Nat) (image : opj_image_t) : List Nat :=
  let n := comps_of image
  let rgb :=
    if n = 1 ∨ n = 2 then [s (comp_at image 0), s (comp_at image 0), s (comp_at image 0)]
    else [s (comp_at image 0), s (comp_at image 1), s (comp_at image 2)]
  let a := if n = 2 then s (comp_at image 1) else if n ≥ 4 then s (comp_at image 3) else 255
  rgb ++ [a]

/-! ## Memory-backed byte stream (`j2k_native.cpp` 60-113) -/

/-- Embedding of `struct MemStream`; `data = none` is the null pointer. -/
structure MemStream where
  data : Option (List Nat) := none
  size : Nat := 0
  pos : Nat := 0
deriving DecidableEq, Repr

/-- The `size_t` difference `a - b` (64-bit, wrapping). -/
def size_sub (a b : Nat) : Nat := (((a : Int) - (b : Int)) % 18446744073709551616).toNat

/-- The `size_t` sum `a + b` (64-bit, wrapping). -/
def size_add (a b : Nat) : Nat := (a + b) % 18446744073709551616

/-- The value `(OPJ_SIZE_T) -1` returned by `mem_read` on failure. -/
def SIZE_T_MINUS_ONE : Nat := 18446744073709551615

/-- Outcome of `mem_read`: the returned count, the bytes stored at `p_buffer`, and the
stream object, `none` when `p_user_data` is null. -/
structure MemReadResult where
  ret : Nat
  buffer : List Nat
  stream : Option MemStream
deriving DecidableEq, Repr

/-- Embedding of `mem_read`; `p_user_data = none` is the null pointer. -/
def mem_read (p_nb_bytes : Nat) (p_user_data : Option MemStream) : MemReadResult :=
  match p_user_data with
  | none => { ret := SIZE_T_MINUS_ONE, buffer := [], stream := none }
  | some ms =>
    match ms.data with
    | none => { ret := SIZE_T_MINUS_ONE, buffer := [], stream := some ms }
    | some data =>
      let remaining := size_sub ms.size ms.pos
      let to_read := if p_nb_bytes > remaining then remaining else p_nb_bytes
      if to_read > 0 then
        { ret := to_read,
          buffer := (List.range to_read).map (fun i => data.getD (ms.pos + i) 0),
          stream := some { ms with pos := size_add ms.pos to_read } }
      else
        { ret := 0, buffer := [], stream := some ms }

/-- Embedding of `mem_skip`: the returned `OPJ_OFF_T` and the stream object. -/
def mem_skip (p_nb_bytes : Int) (p_user_data : Option MemStream) : Int × Option MemStream :=
  match p_user_data with
  | none => (-1, none)
  | some ms =>
    if p_nb_bytes ≤ 0 then (-1, some ms)
    else
      let remaining := size_sub ms.size ms.pos
      if int_to_size p_nb_bytes > remaining then (-1, some ms)
      else (p_nb_bytes, some { ms with pos := size_add ms.pos (int_to_size p_nb_bytes) })

/-- Embedding of `mem_seek`: the returned `OPJ_BOOL` and the stream object. -/
def mem_seek (p_nb_bytes : Int) (p_user_data : Option MemStream) : Bool × Option MemStream :=
  match p_user_data with
  | none => (false, none)
  | some ms =>
    if p_nb_bytes < 0 then (false, some ms)
    else
      let new_pos := int_to_size p_nb_bytes
      if new_pos > ms.size then (false, some ms)
      else (true, some { ms with pos := new_pos })

/-- A stream over the five bytes `10, 20, 30, 40, 50` with the cursor at 1. -/
def stream_five : MemStream := { data := some [10, 20, 30, 40, 50], size := 5, pos := 1 }

/-- A 3-column, 2-row component with subsample factors 2 by 2 (a 5 by 3 image at 4:2:0). -/
def plane_subsampled : opj_image_comp_t :=
  { dx := 2, dy := 2, w := 3, h := 2, prec := 8, sgnd := 0, data := [1, 2, 3, 4, 5, 6] }

/-- A 2 by 2 image of five components: the RGB planes, an alpha plane, and a fifth plane. -/
def image_2x2_five (fifth : List Int) : opj_image_t :=
  { x0 := 0, y0 := 0, x1 := 2, y1 := 2, numcomps := 5,
    comps := [plane_2x2 [255, 0, 0, 255], plane_2x2 [0, 255, 0, 255],
      plane_2x2 [0, 0, 255, 255], plane_2x2 [10, 20, 30, 40], plane_2x2 fifth] }

/-- A 2 by 2 single-component (gray) image. -/
def image_2x2_gray : opj_image_t :=
  { x0 := 0, y0 := 0, x1 := 2, y1 := 2, numcomps := 1, comps := [plane_2x2 [0, 85, 170, 255]] }

/-! ## HDR decode orchestrator (`hdr_native.cpp` 29-92) -/

/-- The bit pattern of the `float` value `1.0f`; `float` values are carried as their 32-bit
patterns, the wrappers only copy them. -/
def FLOAT_ONE : Nat := 0x3F800000

/-- Calls made by the float decoders to the C library and to the codec libraries. -/
inductive LibCall where
  | fopen
  | fclose
  | RGBE_ReadHeader
  | RGBE_ReadPixels_RLE
  | malloc (bytes : Nat)
  | setGlobalThreadCount (n : Int)
  | openRgbaInputFile
  | readPixels
deriving DecidableEq, Repr

/-- What the external collaborators answer during one call of `load_hdr_rgba`: the C
library and the radiance reader (a black box for the wrapper). -/
structure HdrExternal where
  /-- `fopen` returns a non-null file -/
  fopen_ok : Bool
  /-- return value of `RGBE_ReadHeader` -/
  read_header_ret : Int
  /-- value stored into `*width` by `RGBE_ReadHeader`, `none` when it stores nothing -/
  header_width : Option Int
  /-- value stored into `*height` by `RGBE_ReadHeader`, `none` when it stores nothing -/
  header_height : Option Int
  /-- `malloc` of the output buffer: the pointer returned for the request, `0` on failure -/
  malloc_buffer : Nat → Nat
  /-- `malloc` of the intermediate RGB buffer -/
  malloc_rgb : Nat → Nat
  /-- return value of `RGBE_ReadPixels_RLE` -/
  read_pixels_ret : Int
  /-- the `float` values stored into `rgb` by `RGBE_ReadPixels_RLE` -/
  rgb : List Nat

/-- Outcome of one call of `load_hdr_rgba` or `load_exr_rgba`. -/
structure LoadResult where
  /-- the returned `bool` -/
  ret : Bool
  /-- the static state after the call -/
  state : NativeState
  /-- the location `*out_pixels` after the call -/
  out_pixels : Nat
  /-- the location `*width` after the call -/
  width : Int
  /-- the location `*height` after the call -/
  height : Int
  /-- the library calls made, oldest first -/
  calls : List LibCall
  /-- the `float` values written into the output buffer, in the order written -/
  pixels : List Nat

/-- The statement `snprintf(last_hdr_error, sizeof(last_hdr_error), msg)`. -/
def set_hdr_error (s : NativeState) (msg : String) : NativeState :=
  { s with last_hdr_error := snprintf512 msg }

/-- The read `rgb[i]` of a `float` array at an index computed by the code. -/
def read_float (data : List Nat) (i : Int) : Nat :=
  if i < 0 then 0 else data.getD i.toNat 0

/-- Embedding of `load_hdr_rgba`, for the answers `ext` of the external collaborators, the
static state `s` at entry and the values held by the (non-null) output parameters. -/
def load_hdr_rgba (ext : HdrExternal) (s : NativeState) (out_pixels : Nat)
    (width height : Int) : LoadResult :=
  if !ext.fopen_ok then
    { ret := false, state := set_hdr_error s "Failed to open HDR file.",
      out_pixels := out_pixels, width := width, height := height,
      calls := [LibCall.fopen], pixels := [] }
  else
    let width := ext.header_width.getD width
    let height := ext.header_height.getD height
    if ext.read_header_ret < 0 then
      { ret := false, state := set_hdr_error s "Failed to read HDR header.",
        out_pixels := out_pixels, width := width, height := height,
        calls := [LibCall.fopen, LibCall.RGBE_ReadHeader, LibCall.fclose], pixels := [] }
    else
      let totalPixels := mul32 width height
      let bytes4 := (4 * int_to_size totalPixels * 4) % 18446744073709551616
      let buffer := ext.malloc_buffer bytes4
      if buffer = 0 then
        { ret := false,
          state := set_hdr_error s "Failed to allocate memory for HDR output buffer.",
          out_pixels := out_pixels, width := width, height := height,
          calls := [LibCall.fopen, LibCall.RGBE_ReadHeader, LibCall.malloc bytes4,
            LibCall.fclose],
          pixels := [] }
      else
        let s := { s with hdr_allocated_ptrs := insert buffer s.hdr_allocated_ptrs }
        let bytes3 := (4 * int_to_size totalPixels * 3) % 18446744073709551616
        let rgb := ext.malloc_rgb bytes3
        if rgb = 0 then
          let s := { s with hdr_allocated_ptrs := s.hdr_allocated_ptrs.erase buffer,
                            freed := s.freed ++ [buffer] }
          { ret := false,
            state := set_hdr_error s
              "Failed to allocate memory for HDR intermediate RGB buffer.",
            out_pixels := out_pixels, width := width, height := height,
            calls := [LibCall.fopen, LibCall.RGBE_ReadHeader, LibCall.malloc bytes4,
              LibCall.malloc bytes3, LibCall.fclose],
            pixels := [] }
        else if ext.read_pixels_ret < 0 then
          let s := { s with hdr_allocated_ptrs := s.hdr_allocated_ptrs.erase buffer,
                            freed := s.freed ++ [buffer, rgb] }
          { ret := false, state := set_hdr_error s "Failed to read HDR pixels (RLE).\n",
            out_pixels := out_pixels, width := width, height := height,
            calls := [LibCall.fopen, LibCall.RGBE_ReadHeader, LibCall.malloc bytes4,
              LibCall.malloc bytes3, LibCall.RGBE_ReadPixels_RLE, LibCall.fclose],
            pixels := [] }
        else
          let pixels := (loop_range totalPixels).flatMap (fun i =>
            [read_float ext.rgb (add32 (mul32 i 3) 0), read_float ext.rgb (add32 (mul32 i 3) 1),
             read_float ext.rgb (add32 (mul32 i 3) 2), FLOAT_ONE])
          let s := { s with freed := s.freed ++ [rgb], last_hdr_error := "" }
          { ret := true, state := s, out_pixels := buffer, width := width, height := height,
            calls := [LibCall.fopen, LibCall.RGBE_ReadHeader, LibCall.malloc bytes4,
              LibCall.malloc bytes3, LibCall.RGBE_ReadPixels_RLE, LibCall.fclose],
            pixels := pixels }

/-! ## EXR decode orchestrator (`exr_native.cpp` 29-82) -/

/-- An exception caught by `load_exr_rgba`: a `std::exception` with its `what()` text, or any
other exception. -/
inductive ExrException where
  | std_exception (what : String)
  | other
deriving DecidableEq, Repr

/-- What the external collaborators answer during one call of `load_exr_rgba`: the OpenEXR
library (a black box for the wrapper), the C++ runtime and the allocator. -/
structure ExrExternal where
  /-- `std::thread::hardware_concurrency()` -/
  hardware_concurrency : Nat
  /-- exception thrown while the file is opened and its data window read, before `*width`
  and `*height` are stored -/
  open_exception : Option ExrException
  /-- the data window `dw.min.x`, `dw.min.y`, `dw.max.x`, `dw.max.y` -/
  min_x : Int
  min_y : Int
  max_x : Int
  max_y : Int
  /-- exception thrown by `resizeErase`, `setFrameBuffer` or `readPixels`, after `*width`
  and `*height` are stored -/
  read_exception : Option ExrException
  /-- the channels r, g, b, a of `pixels[y][x]` converted to `float` -/
  pixel : Int → Int → List Nat
  /-- `malloc`: the pointer returned for the request, `0` on failure -/
  malloc : Nat → Nat

/-- The statement `snprintf(last_exr_error, sizeof(last_exr_error), ...)` with the text
formatted. -/
def set_exr_error (s : NativeState) (msg : String) : NativeState :=
  { s with last_exr_error := snprintf512 msg }

/-- The message written by the two `catch` clauses. -/
def exr_exception_message (e : ExrException) : String :=
  match e with
  | ExrException.std_exception what => "EXR exception: " ++ what
  | ExrException.other => "Unknown EXR exception."

/-- The one-time initialisation `std::call_once(exr_init_flag, ...)`: the state after it and
the library calls it makes. -/
def exr_init_once (ext : ExrExternal) (s : NativeState) : NativeState × List LibCall :=
  if s.exr_init_flag then (s, [])
  else
    let n := ext.hardware_concurrency
    ({ s with exr_init_flag := true, stdout := s.stdout ++ [Diagnostic.exr_threads n] },
     [LibCall.setGlobalThreadCount (if n != 0 then u32_to_int n else 1)])

/-- Embedding of `load_exr_rgba`, for the answers `ext` of the external collaborators, the
static state `s` at entry and the values held by the (non-null) output parameters. -/
def load_exr_rgba (ext : ExrExternal) (s : NativeState) (_out_pixels : Nat)
    (_width _height : Int) : LoadResult :=
  let init := exr_init_once ext s
  let s := init.1
  let calls := init.2 ++ [LibCall.openRgbaInputFile]
  match ext.open_exception with
  | some e =>
    { ret := false, state := set_exr_error s (exr_exception_message e), out_pixels := 0,
      width := 0, height := 0, calls := calls, pixels := [] }
  | none =>
    let w := add32 (sub32 ext.max_x ext.min_x) 1
    let h := add32 (sub32 ext.max_y ext.min_y) 1
    let calls := calls ++ [LibCall.readPixels]
    match ext.read_exception with
    | some e =>
      { ret := false, state := set_exr_error s (exr_exception_message e), out_pixels := 0,
        width := 0, height := 0, calls := calls, pixels := [] }
    | none =>
      let bytes := (4 * int_to_size w * int_to_size h * 4) % 18446744073709551616
      let buffer := ext.malloc bytes
      let calls := calls ++ [LibCall.malloc bytes]
      if buffer = 0 then
        { ret := false,
          state := set_exr_error s "Failed to allocate memory for EXR output buffer.",
          out_pixels := buffer, width := w, height := h, calls := calls, pixels := [] }
      else
        let s := { s with exr_allocated_ptrs := insert buffer s.exr_allocated_ptrs }
        let pixels := (loop_range h).flatMap (fun y => (loop_range w).flatMap (fun x =>
          ext.pixel x y))
        { ret := true, state := { s with last_exr_error := "" }, out_pixels := buffer,
          width := w, height := h, calls := calls, pixels := pixels }

/-! ## Concrete calls of the decode entry points -/

/-- A J2K call with a null `data` and all output parameters holding 7. -/
def args_null_data : DecodeArgs :=
  { data := none, reduce := 0, out_pixels := some 7, width := some 7, height := some 7,
    stride_bytes := some 7 }

/-- A J2K call on a raw codestream (the bytes after the marker are immaterial here, the
decoder being external), with all output parameters holding 7. -/
def args_codestream : DecodeArgs :=
  { data := some [0xFF, 0x4F, 0xFF, 0x51], reduce := 0, out_pixels := some 7,
    width := some 7, height := some 7, stride_bytes := some 7 }

/-- Collaborators of `load_hdr_rgba` when the file cannot be opened. -/
def hdr_unreadable : HdrExternal :=
  { fopen_ok := false, read_header_ret := -1, header_width := none, header_height := none,
    malloc_buffer := fun _ => 0, malloc_rgb := fun _ => 0, read_pixels_ret := -1, rgb := [] }

/-- Collaborators of `load_hdr_rgba` for a 1 by 1 image whose pixel read fails after both
buffers were allocated (at 20480 and 24576). -/
def hdr_bad_pixels : HdrExternal :=
  { fopen_ok := true, read_header_ret := 0, header_width := some 1, header_height := some 1,
    malloc_buffer := fun _ => 20480, malloc_rgb := fun _ => 24576, read_pixels_ret := -1,
    rgb := [] }

/-- Collaborators of `load_hdr_rgba` for a 1 by 1 image that decodes. -/
def hdr_1x1 : HdrExternal :=
  { fopen_ok := true, read_header_ret := 0, header_width := some 1, header_height := some 1,
    malloc_buffer := fun _ => 20480, malloc_rgb := fun _ => 24576, read_pixels_ret := 0,
    rgb := [1056964608, 1048576000, 1040187392] }

/-- Collaborators of `load_exr_rgba` for a 2 by 2 data window when `malloc` fails. -/
def exr_no_memory : ExrExternal :=
  { hardware_concurrency := 8, open_exception := none, min_x := 0, min_y := 0, max_x := 1,
    max_y := 1, read_exception := none, pixel := fun _ _ => [0, 0, 0, FLOAT_ONE],
    malloc := fun _ => 0 }

/-- Collaborators of `load_exr_rgba` when opening the file throws. -/
def exr_unreadable : ExrExternal :=
  { hardware_concurrency := 8,
    open_exception := some (ExrException.std_exception "Cannot open image file."),
    min_x := 0, min_y := 0, max_x := 1, max_y := 1, read_exception := none,
    pixel := fun _ _ => [0, 0, 0, FLOAT_ONE], malloc := fun _ => 0 }

/-- Collaborators of `load_exr_rgba` for a 2 by 2 data window that decodes to 28672. -/
def exr_2x2 : ExrExternal :=
  { hardware_concurrency := 8, open_exception := none, min_x := 0, min_y := 0, max_x := 1,
    max_y := 1, read_exception := none, pixel := fun _ _ => [0, 0, 0, FLOAT_ONE],
    malloc := fun _ => 28672 }

/-- A state whose three error slots hold a stale message of an earlier failure. -/
def state_stale_error : NativeState :=
  { last_j2k_error := "opj_decode failed.", last_hdr_error := "Failed to open HDR file.",
    last_exr_error := "Unknown EXR exception." }

/-- Collaborators whose `opj_decode` fails after reporting an error through the callback. -/
def external_decode_fails : OpjExternal :=
  { create_decompress_ok := true, setup_decoder_ok := true, setup_decoder_errors := [],
    stream_create_ok := true, read_header_ok := true, read_header_errors := [],
    header_image_ok := true, decode_ok := false,
    decode_errors := [some "Failed to decode tile 1/1"],
    image := image_2x2_rgb, malloc := fun _ => 4096 }

/-! ## Sequences of stream callbacks -/

/-- A call made by the OpenJPEG stream layer to one of the three callbacks installed by
`create_mem_stream`, with its argument. -/
inductive StreamCall where
  | read (p_nb_bytes : Nat)
  | skip (p_nb_bytes : Int)
  | seek (p_nb_bytes : Int)
deriving DecidableEq, Repr

/-- The stream object `ms` after one callback call whose `p_user_data` points to it. -/
def stream_after (ms : MemStream) (c : StreamCall) : MemStream :=
  match c with
  | StreamCall.read n => ((mem_read n (some ms)).stream).getD ms
  | StreamCall.skip n => ((mem_skip n (some ms)).2).getD ms
  | StreamCall.seek n => ((mem_seek n (some ms)).2).getD ms

/-- The stream object after a finite sequence of callback calls, oldest first. -/
def stream_after_calls (ms : MemStream) (cs : List StreamCall) : MemStream :=
  cs.foldl stream_after ms

/-- The stream object as the orchestrator creates it, `MemStream ms{data, size, 0}`. -/
def new_mem_stream (data : Option (List Nat)) (size : Nat) : MemStream :=
  { data := data, size := size, pos := 0 }

/-- A sequence of callback calls with requests past the end, a backward seek, a negative
skip and a seek past the end. -/
def calls_mixed : List StreamCall :=
  [StreamCall.read 3, StreamCall.skip 7, StreamCall.seek 1, StreamCall.skip (-1),
   StreamCall.read 100, StreamCall.seek 9, StreamCall.seek 2, StreamCall.skip 2]

/-! ## Machine-integer lemmas -/

theorem wrap32_of_range (z : Int) (h0 : -2147483648 ≤ z) (h1 : z ≤ 2147483647) :
    wrap32 z = z := by
  unfold wrap32; omega

theorem u32_roundtrip (w : Int) (h0 : 0 ≤ w) (h1 : w ≤ 2147483647) :
    u32_to_int (int_to_u32 w) = w := by
  unfold u32_to_int int_to_u32 wrap32; omega

theorem int_to_u32_natCast (w : Nat) (h : (w : Int) ≤ 2147483647) :
    int_to_u32 (w : Int) = w := by
  unfold int_to_u32; omega

theorem u32_to_int_natCast (w : Nat) (h : (w : Int) ≤ 2147483647) :
    u32_to_int w = (w : Int) := by
  unfold u32_to_int
  exact wrap32_of_range _ (Int.le_trans (by decide) (Int.ofNat_nonneg w)) h

theorem div32_one (x : Int) (h0 : 0 ≤ x) (h1 : x ≤ 2147483647) : div32 x 1 = x := by
  rw [div32, Int.tdiv_one]
  exact wrap32_of_range x (by omega) h1

theorem clamp_int_self (x n : Int) (h0 : 0 ≤ x) (h1 : x < n) (h2 : n ≤ 2147483647) :
    clamp_int x 0 (sub32 n 1) = x := by
  have e : sub32 n 1 = n - 1 := wrap32_of_range (n - 1) (by omega) (by omega)
  rw [e, clamp_int, if_neg (by omega), if_neg (by omega)]

/-! ## Rescale lemmas -/

theorem scale_to_u8_id (v : Int) (h0 : 0 ≤ v) (h255 : v ≤ 255) :
    scale_to_u8 v { prec := 8, sgnd := false, maxv := 255 } = v.toNat := by
  obtain ⟨n, rfl⟩ := Int.eq_ofNat_of_zero_le h0
  have hn : n < 256 := by omega
  interval_cases n <;> rfl

theorem make_scale_params_8bit (c : opj_image_comp_t) (hp : c.prec = 8) (hs : c.sgnd = 0) :
    make_scale_params c = { prec := 8, sgnd := false, maxv := 255 } := by
  have hs2 : (c.sgnd != 0) = false := by simp [hs]
  simp only [make_scale_params, hp, hs2]
  decide

theorem make_scale_params_of_prec (p : Nat) (sgnd : Bool) (h1 : 1 ≤ p) (h30 : p ≤ 30) :
    make_scale_params (comp_of_prec p sgnd) =
      { prec := (p : Int), sgnd := sgnd, maxv := 2 ^ p - 1 } := by
  interval_cases p <;> cases sgnd <;> decide

theorem shl32_one_pred (p : Nat) (h1 : 1 ≤ p) (h30 : p ≤ 30) :
    shl32 1 (sub32 (p : Int) 1) = 2 ^ (p - 1) := by
  interval_cases p <;> decide

theorem scale_core (v maxv : Int) (hv : 0 ≤ v) (hm : 0 < maxv)
    (hfit : v * 255 + maxv / 2 ≤ 2147483647) :
    div32 (add32 (mul32 v 255) (div32 maxv 2)) maxv = (v * 255 + maxv / 2) / maxv := by
  have hhalf0 : 0 ≤ maxv / 2 := Int.ediv_nonneg (le_of_lt hm) (by decide)
  have h255 : 0 ≤ v * 255 := mul_nonneg hv (by decide)
  have hmul : mul32 v 255 = v * 255 := wrap32_of_range _ (by linarith) (by linarith)
  have hhalf : div32 maxv 2 = maxv / 2 := by
    rw [div32, Int.tdiv_eq_ediv (le_of_lt hm) (by decide)]
    exact wrap32_of_range _ (by linarith) (by linarith)
  have hadd : add32 (v * 255) (maxv / 2) = v * 255 + maxv / 2 :=
    wrap32_of_range _ (by linarith) hfit
  have hq0 : 0 ≤ (v * 255 + maxv / 2) / maxv :=
    Int.ediv_nonneg (by linarith) (le_of_lt hm)
  have hq1 : (v * 255 + maxv / 2) / maxv ≤ v * 255 + maxv / 2 :=
    Int.ediv_le_self _ (by linarith)
  rw [hmul, hhalf, hadd, div32, Int.tdiv_eq_ediv (by linarith) (le_of_lt hm)]
  exact wrap32_of_range _ (by linarith) (by linarith)

theorem clamp_to_u8 (q : Int) :
    ((int_to_u8 (if (if q < 0 then 0 else q) > 255 then 255 else (if q < 0 then 0 else q)) : Nat)
      : Int) = max 0 (min 255 q) := by
  unfold int_to_u8
  split_ifs <;> omega

/-- The rescale formula is computed without loss for every precision up to 23: there
`v * 255 + maxv / 2` stays below `2 ^ 31`. -/
theorem scale_to_u8_exact_upto_23 (p : Nat) (sgnd : Bool) (sample : Int) (h1 : 1 ≤ p)
    (h23 : p ≤ 23)
    (hrange : if sgnd then -(2 ^ (p - 1)) ≤ sample ∧ sample ≤ 2 ^ (p - 1) - 1
      else 0 ≤ sample ∧ sample ≤ 2 ^ p - 1) :
    (scale_to_u8 sample (make_scale_params (comp_of_prec p sgnd)) : Int) =
      scaleToByte_spec sample p sgnd := by
  rw [make_scale_params_of_prec p sgnd h1 (by omega)]
  have hpow : (2 : Int) ^ p = 2 * 2 ^ (p - 1) := by
    obtain ⟨k, rfl⟩ : ∃ k, p = k + 1 := ⟨p - 1, by omega⟩
    rw [Nat.add_sub_cancel, pow_succ, mul_comm]
  have hhalf_pos : (1 : Int) ≤ 2 ^ (p - 1) := one_le_pow₀ (by decide)
  have hhalf_le : (2 : Int) ^ (p - 1) ≤ 2 ^ 22 :=
    pow_le_pow_right₀ (by decide) (by omega)
  have h22 : (2 : Int) ^ 22 = 4194304 := by decide
  generalize hH : (2 : Int) ^ (p - 1) = H at *
  generalize hM : (2 : Int) ^ p = M at *
  unfold scale_to_u8 scaleToByte_spec
  cases sgnd with
  | false =>
    simp only [Bool.false_eq_true, if_false] at hrange ⊢
    rw [hM]
    rw [scale_core sample (M - 1) hrange.1 (by omega) (by omega)]
    exact clamp_to_u8 _
  | true =>
    simp only [if_true] at hrange ⊢
    rw [hM, shl32_one_pred p h1 (by omega), hH]
    have hv : add32 sample H = sample + H := wrap32_of_range _ (by omega) (by omega)
    rw [hv, scale_core (sample + H) (M - 1) (by omega) (by omega) (by omega)]
    exact clamp_to_u8 _

/-- The rescale formula on the full-scale sample of a 23-bit unsigned component. -/
theorem scale_to_u8_exact_upto_23_witness :
    (scale_to_u8 8388607 (make_scale_params (comp_of_prec 23 false)) : Int) =
      scaleToByte_spec 8388607 23 false :=
  scale_to_u8_exact_upto_23 23 false 8388607 (by decide) (by decide) (by decide)

/-! ## Loop and buffer lemmas -/

theorem mem_loop_range (n x : Int) : x ∈ loop_range n ↔ (0 ≤ x ∧ x < n) := by
  unfold loop_range
  simp only [List.mem_map, List.mem_range]
  constructor
  · rintro ⟨i, hi, rfl⟩
    exact ⟨Int.ofNat_nonneg i, Int.lt_toNat.mp hi⟩
  · rintro ⟨h0, h1⟩
    obtain ⟨k, rfl⟩ := Int.eq_ofNat_of_zero_le h0
    exact ⟨k, Int.lt_toNat.mpr h1, rfl⟩

theorem loop_range_getElem? (n : Int) (i : Nat) (hi : i < n.toNat) :
    (loop_range n)[i]? = some (i : Int) := by
  unfold loop_range
  rw [List.getElem?_map, List.getElem?_range hi]
  rfl

theorem length_loop_range (n : Int) : (loop_range n).length = n.toNat := by
  unfold loop_range
  rw [List.length_map, List.length_range]

theorem length_flatMap_const {α β : Type} (f : α → List β) (k : Nat) :
    ∀ l : List α, (∀ a ∈ l, (f a).length = k) → (l.flatMap f).length = k * l.length := by
  intro l
  induction l with
  | nil => intro _; simp
  | cons a l ih =>
    intro hk
    rw [List.flatMap_cons, List.length_append, hk a (List.mem_cons_self a l),
      ih (fun b hb => hk b (List.mem_cons_of_mem a hb)), List.length_cons, Nat.mul_succ,
      Nat.add_comm]

theorem flatMap_split {α β : Type} (f : α → List β) (k : Nat) :
    ∀ (l : List α), (∀ a ∈ l, (f a).length = k) → ∀ (i : Nat) (a : α), l[i]? = some a →
      ∃ A B : List β, l.flatMap f = A ++ (f a ++ B) ∧ A.length = k * i := by
  intro l
  induction l with
  | nil => intro _ i a h; simp at h
  | cons b l ih =>
    intro hk i a h
    cases i with
    | zero =>
      simp only [List.getElem?_cons_zero, Option.some.injEq] at h
      subst h
      exact ⟨[], l.flatMap f, by simp, by simp⟩
    | succ i =>
      rw [List.getElem?_cons_succ] at h
      obtain ⟨A, B, hAB, hA⟩ := ih (fun c hc => hk c (List.mem_cons_of_mem b hc)) i a h
      refine ⟨f b ++ A, B, ?_, ?_⟩
      · rw [List.flatMap_cons, hAB, List.append_assoc]
      · rw [List.length_append, hk b (List.mem_cons_self b l), hA, Nat.mul_succ, Nat.add_comm]

theorem write_pixels_congr (px1 px2 : Int → Int → List Nat) (w h : Int)
    (hpx : ∀ x y : Int, 0 ≤ x → x < w → 0 ≤ y → y < h → px1 x y = px2 x y) :
    write_pixels px1 w h = write_pixels px2 w h := by
  unfold write_pixels
  apply List.flatMap_congr
  intro y hy
  apply List.flatMap_congr
  intro x hx
  rw [mem_loop_range] at hx hy
  exact hpx x y hx.1 hx.2 hy.1 hy.2

theorem length_write_pixels (px : Int → Int → List Nat) (w h : Int)
    (hlen : ∀ x y : Int, (px x y).length = 4) :
    (write_pixels px w h).length = 4 * (w.toNat * h.toNat) := by
  unfold write_pixels
  rw [length_flatMap_const _ (4 * w.toNat), length_loop_range, Nat.mul_assoc]
  intro y _
  rw [length_flatMap_const _ 4, length_loop_range]
  intro x _
  exact hlen x y

theorem pixel_at_write_pixels (px : Int → Int → List Nat) (w h : Int)
    (hlen : ∀ x y : Int, (px x y).length = 4) (x y : Nat) (hx : x < w.toNat)
    (hy : y < h.toNat) :
    pixel_at (write_pixels px w h) w.toNat x y = px x y := by
  have hrow : ∀ y' : Int,
      ((loop_range w).flatMap (fun x' => px x' y')).length = 4 * w.toNat := by
    intro y'
    rw [length_flatMap_const _ 4, length_loop_range]
    intro x' _
    exact hlen x' y'
  obtain ⟨A, B, hAB, hA⟩ := flatMap_split (fun y' => (loop_range w).flatMap (fun x' => px x' y'))
    (4 * w.toNat) (loop_range h) (fun y' _ => hrow y') y (y : Int) (loop_range_getElem? h y hy)
  obtain ⟨A2, B2, hAB2, hA2⟩ := flatMap_split (fun x' => px x' (y : Int)) 4 (loop_range w)
    (fun x' _ => hlen x' y) x (x : Int) (loop_range_getElem? w x hx)
  have hbuf : write_pixels px w h = (A ++ A2) ++ (px x y ++ (B2 ++ B)) := by
    unfold write_pixels
    rw [hAB, hAB2]
    simp only [List.append_assoc]
  have hlenA : (A ++ A2).length = 4 * (y * w.toNat + x) := by
    rw [List.length_append, hA, hA2]; ring
  unfold pixel_at
  rw [hbuf, ← hlenA, List.drop_left, ← hlen x y, List.take_left]

theorem getElem?_of_pixel_at (buf : List Nat) (w x y : Nat) (l : List Nat)
    (h : pixel_at buf w x y = l) (k : Nat) (hk : k < 4) :
    buf[4 * (y * w + x) + k]? = l[k]? := by
  rw [← h, pixel_at, List.getElem?_take_of_lt hk, List.getElem?_drop]

theorem read_sample_natCast (data : List Int) (i : Nat) :
    read_sample data (i : Int) = data.getD i 0 := by
  unfold read_sample
  rw [if_neg (by omega), Int.toNat_natCast]

theorem getD_mem_bounds (data : List Int) (hb : ∀ v ∈ data, 0 ≤ v ∧ v ≤ 255) (i : Nat) :
    0 ≤ data.getD i 0 ∧ data.getD i 0 ≤ 255 := by
  by_cases hi : i < data.length
  · have : data.getD i 0 = data[i] := by
      rw [List.getD_eq_getElem?_getD, List.getElem?_eq_getElem hi]; rfl
    rw [this]
    exact hb _ (List.getElem_mem hi)
  · have : data.getD i 0 = 0 := by
      rw [List.getD_eq_getElem?_getD, List.getElem?_eq_none (by omega)]; rfl
    rw [this]; omega

/-! ## Normalizer lemmas -/

theorem full_res_iff (w h : Int) (c : opj_image_comp_t) :
    full_res w h c = true ↔
      (c.dx = 1 ∧ c.dy = 1 ∧ c.w = int_to_u32 w ∧ c.h = int_to_u32 h) := by
  simp [full_res, and_assoc]

theorem length_fast_pixel (image : opj_image_t) (x y : Int) :
    (fast_pixel image x y).length = 4 := by
  unfold fast_pixel
  split <;> rfl

theorem length_slow_pixel (image : opj_image_t) (x y : Int) :
    (slow_pixel image x y).length = 4 := by
  unfold slow_pixel
  split <;> rfl

theorem sample_comp_u8_eq_fast (w h : Int) (c : opj_image_comp_t) (sp : ScaleParams)
    (hw : 0 < w) (hh : 0 < h) (hfit : w * h ≤ INT_MAX) (hc : full_res w h c = true)
    (x y : Int) (hx0 : 0 ≤ x) (hx : x < w) (hy0 : 0 ≤ y) (hy : y < h) :
    sample_comp_u8 c sp x y = fast_sample_u8 c sp x y := by
  obtain ⟨hdx, hdy, hcw, hch⟩ := (full_res_iff w h c).mp hc
  unfold INT_MAX at hfit
  have hwh : w ≤ w * h := le_mul_of_one_le_right (le_of_lt hw) (by linarith)
  have hhw : h ≤ w * h := le_mul_of_one_le_left (le_of_lt hh) (by linarith)
  have hwmax : w ≤ 2147483647 := le_trans hwh hfit
  have hhmax : h ≤ 2147483647 := le_trans hhw hfit
  have hyw0 : 0 ≤ y * w := mul_nonneg hy0 (le_of_lt hw)
  have hyw : y * w + w ≤ w * h := by nlinarith
  have hcw2 : u32_to_int c.w = w := by rw [hcw]; exact u32_roundtrip w (le_of_lt hw) hwmax
  have hch2 : u32_to_int c.h = h := by rw [hch]; exact u32_roundtrip h (le_of_lt hh) hhmax
  have hx1 : div32 x 1 = x := div32_one x hx0 (by linarith)
  have hy1 : div32 y 1 = y := div32_one y hy0 (by linarith)
  have hcx : clamp_int x 0 (sub32 w 1) = x := clamp_int_self x w hx0 hx hwmax
  have hcy : clamp_int y 0 (sub32 h 1) = y := clamp_int_self y h hy0 hy hhmax
  have hmul : mul32 y w = y * w := wrap32_of_range _ (by linarith) (by linarith)
  have hadd : add32 (y * w) x = y * w + x := wrap32_of_range _ (by linarith) (by linarith)
  simp only [sample_comp_u8, fast_sample_u8, hdx, hdy, hcw2, hch2]
  simp only [show u32_to_int 1 = 1 from by decide, if_true, gt_iff_lt,
    Nat.zero_lt_one, hx1, hy1, hcx, hcy, hmul, hadd]

theorem slow_pixel_eq_fast_pixel (image : opj_image_t) (w h : Int)
    (hw : 0 < w) (hh : 0 < h) (hfit : w * h ≤ INT_MAX) (hfast : fast_path image w h = true)
    (x y : Int) (hx0 : 0 ≤ x) (hx : x < w) (hy0 : 0 ≤ y) (hy : y < h) :
    slow_pixel image x y = fast_pixel image x y := by
  have key : ∀ c : opj_image_comp_t, full_res w h c = true →
      sample_comp_u8 c (make_scale_params c) x y = fast_sample_u8 c (make_scale_params c) x y :=
    fun c hc => sample_comp_u8_eq_fast w h c (make_scale_params c) hw hh hfit hc x y hx0 hx hy0 hy
  unfold fast_path at hfast
  unfold slow_pixel fast_pixel
  cases hg : is_gray image
  · rw [hg] at hfast
    rw [if_neg Bool.false_ne_true] at hfast
    rw [if_neg Bool.false_ne_true, if_neg Bool.false_ne_true]
    cases ha : alpha_comp image with
    | none =>
      rw [ha] at hfast
      simp only [Bool.and_eq_true, and_true] at hfast
      dsimp only
      rw [key _ hfast.1.1.2, key _ hfast.1.2, key _ hfast.2]
    | some cap =>
      rw [ha] at hfast
      simp only [Bool.and_eq_true] at hfast
      dsimp only
      rw [key _ hfast.1.1.1.2, key _ hfast.1.1.2, key _ hfast.1.2, key _ hfast.2]
  · rw [hg] at hfast
    rw [if_pos rfl] at hfast
    rw [if_pos rfl, if_pos rfl]
    cases ha : alpha_comp image with
    | none =>
      rw [ha] at hfast
      simp only [Bool.and_eq_true, and_true] at hfast
      dsimp only
      rw [key _ hfast]
    | some cap =>
      rw [ha] at hfast
      simp only [Bool.and_eq_true] at hfast
      dsimp only
      rw [key _ hfast.1, key _ hfast.2]

theorem full_res_rgb8 (w h : Nat) (c : opj_image_comp_t) (hw : (w : Int) ≤ 2147483647)
    (hh : (h : Int) ≤ 2147483647) (hc : rgb8_comp w h c) :
    full_res (w : Int) (h : Int) c = true := by
  obtain ⟨_, _, hdx, hdy, hcw, hch, _, _⟩ := hc
  rw [full_res_iff, int_to_u32_natCast w hw, int_to_u32_natCast h hh]
  exact ⟨hdx, hdy, hcw, hch⟩

theorem fast_sample_u8_rgb8 (w h : Nat) (c : opj_image_comp_t)
    (hfit : (w : Int) * (h : Int) ≤ INT_MAX) (hc : rgb8_comp w h c) (x y : Nat) (hx : x < w)
    (hy : y < h) :
    fast_sample_u8 c (make_scale_params c) (x : Int) (y : Int) = sample_byte c (y * w + x) := by
  obtain ⟨hp, hs, _, _, hcw, _, _, hb⟩ := hc
  unfold INT_MAX at hfit
  have hx' : (x : Int) + 1 ≤ w := by exact_mod_cast hx
  have hy' : (y : Int) + 1 ≤ h := by exact_mod_cast hy
  have hx0 : (0 : Int) ≤ x := Int.ofNat_nonneg x
  have hy0 : (0 : Int) ≤ y := Int.ofNat_nonneg y
  have hyw0 : (0 : Int) ≤ (y : Int) * (w : Int) := mul_nonneg hy0 (by linarith)
  have hyw : (y : Int) * (w : Int) + (w : Int) ≤ (w : Int) * (h : Int) := by nlinarith
  have hwmax : (w : Int) ≤ 2147483647 := by linarith
  have hmul : mul32 (y : Int) (w : Int) = ((y * w : Nat) : Int) := by
    rw [Nat.cast_mul]
    exact wrap32_of_range _ (by linarith) (by linarith)
  rw [make_scale_params_8bit c hp hs]
  unfold fast_sample_u8 sample_byte
  rw [hcw, u32_to_int_natCast w hwmax, hmul, ← Nat.cast_add, read_sample_natCast]
  have hv := getD_mem_bounds c.data hb (y * w + x)
  exact scale_to_u8_id _ hv.1 hv.2

/-! ## Registry lemmas -/

theorem free_pixels_null (f : Family) (s : NativeState) :
    (free_pixels f s 0).freed = s.freed ∧
    (∀ g : Family, registry g (free_pixels f s 0) = registry g s) ∧
    (free_pixels f s 0).stdout.length = s.stdout.length + 1 := by
  cases f <;>
    simp [registry, free_pixels, free_j2k_pixels, free_hdr_pixels, free_exr_pixels]

theorem free_pixels_nonmember (f : Family) (s : NativeState) (p : Nat) (hp : p ≠ 0)
    (h : p ∉ registry f s) :
    (free_pixels f s p).freed = s.freed ∧
    (∀ g : Family, registry g (free_pixels f s p) = registry g s) ∧
    (free_pixels f s p).stdout.length = s.stdout.length + 1 := by
  cases f <;> simp only [registry] at h <;>
    simp [registry, free_pixels, free_j2k_pixels, free_hdr_pixels, free_exr_pixels, hp, h]

theorem free_pixels_member (f : Family) (s : NativeState) (p : Nat) (hp : p ≠ 0)
    (h : p ∈ registry f s) : (free_pixels f s p).freed = s.freed ++ [p] := by
  cases f <;> simp only [registry] at h <;>
    simp [free_pixels, free_j2k_pixels, free_hdr_pixels, free_exr_pixels, hp, h]

/-! ## Lemmas on the slow-path index, the channel mapping and the byte stream -/

theorem sample_comp_u8_reads_idx (comp : opj_image_comp_t) (sp : ScaleParams) (x y : Int) :
    sample_comp_u8 comp sp x y =
      scale_to_u8 (read_sample comp.data (sample_comp_idx comp x y)) sp := rfl

theorem clamp_div_coord (v : Int) (d n : Nat) (hv0 : 0 ≤ v) (hv : v ≤ 2147483647)
    (hd : d < 4294967296) (hn1 : 1 ≤ n) (hn : (n : Int) ≤ 2147483647) :
    clamp_int (div32 v (if d > 0 then u32_to_int d else 1)) 0 (sub32 (u32_to_int n) 1) =
      clamped_coord_spec v d n := by
  have hsub : sub32 (u32_to_int n) 1 = (n : Int) - 1 := by
    rw [u32_to_int_natCast n hn]
    exact wrap32_of_range _ (by omega) (by omega)
  have hn0 : (0 : Int) ≤ (n : Int) - 1 := by omega
  rw [hsub]
  unfold clamped_coord_spec
  by_cases hd0 : d = 0
  · subst hd0
    rw [if_neg (by decide), if_pos rfl, div32_one v hv0 hv, Nat.cast_one, Int.ediv_one]
    unfold clamp_int
    split_ifs <;> omega
  · have hdpos : d > 0 := Nat.pos_of_ne_zero hd0
    rw [if_pos hdpos, if_neg hd0]
    by_cases hbig : (d : Int) ≤ 2147483647
    · have hq0 : 0 ≤ v / (d : Int) := Int.ediv_nonneg hv0 (Int.ofNat_nonneg d)
      have hq1 : v / (d : Int) ≤ v := Int.ediv_le_self _ hv0
      rw [u32_to_int_natCast d hbig, div32, Int.tdiv_eq_ediv hv0 (Int.ofNat_nonneg d),
        wrap32_of_range _ (by omega) (by omega)]
      unfold clamp_int
      split_ifs <;> omega
    · have hcast : u32_to_int d = -((4294967296 : Int) - d) := by
        unfold u32_to_int wrap32; omega
      have he0 : (0 : Int) ≤ 4294967296 - (d : Int) := by omega
      have hq0 : 0 ≤ v / (4294967296 - (d : Int)) := Int.ediv_nonneg hv0 he0
      have hq1 : v / (4294967296 - (d : Int)) ≤ v := Int.ediv_le_self _ hv0
      have hzero : v / (d : Int) = 0 := Int.ediv_eq_zero_of_lt hv0 (by omega)
      rw [hcast, div32, Int.tdiv_neg, Int.tdiv_eq_ediv hv0 he0,
        wrap32_of_range _ (by omega) (by omega), hzero]
      unfold clamp_int
      split_ifs <;> omega

theorem clamped_coord_spec_bounds (v : Int) (d n : Nat) (hv0 : 0 ≤ v) (hn1 : 1 ≤ n) :
    0 ≤ clamped_coord_spec v d n ∧ clamped_coord_spec v d n ≤ (n : Int) - 1 := by
  unfold clamped_coord_spec
  have hq0 : 0 ≤ v / (((if d = 0 then 1 else d) : Nat) : Int) :=
    Int.ediv_nonneg hv0 (Int.ofNat_nonneg _)
  constructor
  · exact le_min hq0 (by omega)
  · exact min_le_right _ _

theorem gray_alpha_one (image : opj_image_t) (h : comps_of image = 1) :
    is_gray image = true ∧ alpha_comp image = none := by
  unfold is_gray alpha_comp
  rw [h]
  exact ⟨rfl, rfl⟩

theorem gray_alpha_two (image : opj_image_t) (h : comps_of image = 2) :
    is_gray image = true ∧ alpha_comp image = some (comp_at image 1) := by
  unfold is_gray alpha_comp
  rw [h]
  exact ⟨rfl, rfl⟩

theorem gray_alpha_three (image : opj_image_t) (h1 : comps_of image ≠ 1)
    (h2 : comps_of image ≠ 2) (h4 : ¬ comps_of image ≥ 4) :
    is_gray image = false ∧ alpha_comp image = none := by
  unfold is_gray alpha_comp
  rw [beq_eq_false_iff_ne.mpr h1, beq_eq_false_iff_ne.mpr h2, if_neg h4]
  exact ⟨rfl, rfl⟩

theorem gray_alpha_four (image : opj_image_t) (h4 : comps_of image ≥ 4) :
    is_gray image = false ∧ alpha_comp image = some (comp_at image 3) := by
  have h1 : comps_of image ≠ 1 := by omega
  have h2 : comps_of image ≠ 2 := by omega
  unfold is_gray alpha_comp
  rw [beq_eq_false_iff_ne.mpr h1, beq_eq_false_iff_ne.mpr h2, if_pos h4]
  exact ⟨rfl, rfl⟩

theorem fast_pixel_channels (image : opj_image_t) (x y : Int) :
    fast_pixel image x y =
      channel_map_spec (fun c => fast_sample_u8 c (make_scale_params c) x y) image := by
  unfold fast_pixel channel_map_spec
  by_cases h1 : comps_of image = 1
  · rw [(gray_alpha_one image h1).1, (gray_alpha_one image h1).2, if_pos rfl]
    dsimp only
    rw [if_pos (Or.inl h1), if_neg (by omega), if_neg (by omega)]
    rfl
  · by_cases h2 : comps_of image = 2
    · rw [(gray_alpha_two image h2).1, (gray_alpha_two image h2).2, if_pos rfl]
      dsimp only
      rw [if_pos (Or.inr h2), if_pos h2]
      rfl
    · by_cases h4 : comps_of image ≥ 4
      · rw [(gray_alpha_four image h4).1, (gray_alpha_four image h4).2,
          if_neg Bool.false_ne_true]
        dsimp only
        rw [if_neg (by omega), if_neg h2, if_pos h4]
        rfl
      · rw [(gray_alpha_three image h1 h2 h4).1, (gray_alpha_three image h1 h2 h4).2,
          if_neg Bool.false_ne_true]
        dsimp only
        rw [if_neg (by omega), if_neg h2, if_neg h4]
        rfl

theorem slow_pixel_channels (image : opj_image_t) (x y : Int) :
    slow_pixel image x y =
      channel_map_spec (fun c => sample_comp_u8 c (make_scale_params c) x y) image := by
  unfold slow_pixel channel_map_spec
  by_cases h1 : comps_of image = 1
  · rw [(gray_alpha_one image h1).1, (gray_alpha_one image h1).2, if_pos rfl]
    dsimp only
    rw [if_pos (Or.inl h1), if_neg (by omega), if_neg (by omega)]
    rfl
  · by_cases h2 : comps_of image = 2
    · rw [(gray_alpha_two image h2).1, (gray_alpha_two image h2).2, if_pos rfl]
      dsimp only
      rw [if_pos (Or.inr h2), if_pos h2]
      rfl
    · by_cases h4 : comps_of image ≥ 4
      · rw [(gray_alpha_four image h4).1, (gray_alpha_four image h4).2,
          if_neg Bool.false_ne_true]
        dsimp only
        rw [if_neg (by omega), if_neg h2, if_pos h4]
        rfl
      · rw [(gray_alpha_three image h1 h2 h4).1, (gray_alpha_three image h1 h2 h4).2,
          if_neg Bool.false_ne_true]
        dsimp only
        rw [if_neg (by omega), if_neg h2, if_neg h4]
        rfl

theorem comp_at_eq_of_take (image image2 : opj_image_t)
    (h : image2.comps.take 4 = image.comps.take 4) (i : Nat) (hi : i < 4) :
    comp_at image2 i = comp_at image i := by
  have e1 : image2.comps[i]? = (image2.comps.take 4)[i]? := (List.getElem?_take_of_lt hi).symm
  have e2 : image.comps[i]? = (image.comps.take 4)[i]? := (List.getElem?_take_of_lt hi).symm
  unfold comp_at
  rw [List.getD_eq_getElem?_getD, List.getD_eq_getElem?_getD, e1, e2, h]

theorem range_map_getD_eq_take_drop (l : List Nat) (p k : Nat) (h : p + k ≤ l.length) :
    (List.range k).map (fun i => l.getD (p + i) 0) = (l.drop p).take k := by
  apply List.ext_getElem
  · simp; omega
  · intro i h1 h2
    simp only [List.getElem_map, List.getElem_range, List.getElem_take, List.getElem_drop]
    simp at h1
    rw [List.getD_eq_getElem?_getD, List.getElem?_eq_getElem (by omega)]
    rfl

theorem size_sub_exact (a b : Nat) (hb : b ≤ a) (ha : a < 18446744073709551616) :
    size_sub a b = a - b := by
  unfold size_sub; omega

theorem size_add_exact (a b : Nat) (h : a + b < 18446744073709551616) :
    size_add a b = a + b := by
  unfold size_add; omega

theorem int_to_size_exact (n : Int) (h0 : 0 ≤ n) (h1 : n < 9223372036854775808) :
    ((int_to_size n : Nat) : Int) = n := by
  unfold int_to_size; omega

theorem channel_map_spec_alpha (s : opj_image_comp_t → Nat) (image : opj_image_t) :
    (channel_map_spec s image)[3]? =
      some (if comps_of image = 2 then s (comp_at image 1)
        else if comps_of image ≥ 4 then s (comp_at image 3) else 255) := by
  unfold channel_map_spec
  dsimp only
  by_cases hg : comps_of image = 1 ∨ comps_of image = 2
  · rw [if_pos hg]
    simp only [List.cons_append, List.nil_append, List.getElem?_cons_succ,
      List.getElem?_cons_zero]
  · rw [if_neg hg]
    simp only [List.cons_append, List.nil_append, List.getElem?_cons_succ,
      List.getElem?_cons_zero]

theorem channel_map_spec_congr (s : opj_image_comp_t → Nat) (image image2 : opj_image_t)
    (hc : comps_of image2 = comps_of image)
    (hcomp : ∀ i : Nat, i < 4 → comp_at image2 i = comp_at image i) :
    channel_map_spec s image2 = channel_map_spec s image := by
  unfold channel_map_spec
  rw [hc, hcomp 0 (by decide), hcomp 1 (by decide), hcomp 2 (by decide), hcomp 3 (by decide)]

theorem fast_path_congr (image image2 : opj_image_t) (w h : Int)
    (hc : comps_of image2 = comps_of image)
    (hcomp : ∀ i : Nat, i < 4 → comp_at image2 i = comp_at image i) :
    fast_path image2 w h = fast_path image w h := by
  have hg : is_gray image2 = is_gray image := by unfold is_gray; rw [hc]
  have ha : alpha_comp image2 = alpha_comp image := by
    unfold alpha_comp; rw [hc, hcomp 1 (by decide), hcomp 3 (by decide)]
  unfold fast_path
  rw [hg, ha, hc, hcomp 0 (by decide), hcomp 1 (by decide), hcomp 2 (by decide)]

theorem normalize_rgba8_pixel (image : opj_image_t) (w h : Int) (x y : Nat)
    (hx : x < w.toNat) (hy : y < h.toNat) :
    pixel_at (normalize_rgba8 image w h) w.toNat x y =
      if fast_path image w h then fast_pixel image x y else slow_pixel image x y := by
  unfold normalize_rgba8
  by_cases hf : fast_path image w h = true
  · rw [if_pos hf, if_pos hf, normalize_fast]
    exact pixel_at_write_pixels _ w h (length_fast_pixel image) x y hx hy
  · rw [if_neg hf, if_neg hf, normalize_slow]
    exact pixel_at_write_pixels _ w h (length_slow_pixel image) x y hx hy

theorem length_normalize_rgba8 (image : opj_image_t) (w h : Int) :
    (normalize_rgba8 image w h).length = 4 * (w.toNat * h.toNat) := by
  unfold normalize_rgba8
  split
  · exact length_write_pixels _ w h (length_fast_pixel image)
  · exact length_write_pixels _ w h (length_slow_pixel image)


/-! ## Error slots and decode exits -/

theorem length_snprintf512 (t : String) : (snprintf512 t).length ≤ 511 := by
  unfold snprintf512
  show (List.take 511 t.data).length ≤ 511
  rw [List.length_take]
  exact Nat.min_le_left _ _

theorem snprintf512_ne_empty (t : String) (h : t ≠ "") : snprintf512 t ≠ "" := by
  unfold snprintf512
  intro he
  apply h
  have hd : (String.mk (List.take 511 t.data)).data = ("" : String).data := by rw [he]
  have hd2 : List.take 511 t.data = [] := hd
  cases t with
  | mk l =>
    cases l with
    | nil => rfl
    | cons c cs => simp at hd2

theorem foldl_callback_registry (l : List (Option String)) (s : NativeState) :
    (l.foldl opj_error_callback s).j2k_allocated_ptrs = s.j2k_allocated_ptrs := by
  induction l generalizing s with
  | nil => rfl
  | cons m l ih =>
    rw [List.foldl_cons, ih]
    cases m <;> rfl

theorem foldl_callback_freed (l : List (Option String)) (s : NativeState) :
    (l.foldl opj_error_callback s).freed = s.freed := by
  induction l generalizing s with
  | nil => rfl
  | cons m l ih =>
    rw [List.foldl_cons, ih]
    cases m <;> rfl

theorem set_error_slot (s : NativeState) (msg : String) (h : msg ≠ "") :
    (set_error s (some msg)).last_j2k_error ≠ "" ∧
    (set_error s (some msg)).last_j2k_error.length ≤ 511 ∧
    (set_error s (some msg)).j2k_allocated_ptrs = s.j2k_allocated_ptrs ∧
    (set_error s (some msg)).freed = s.freed :=
  ⟨snprintf512_ne_empty msg h, length_snprintf512 msg, rfl, rfl⟩


/-- The exits of the orchestrator past argument validation that report a failure. -/
theorem fail_exit_facts (s0 s : NativeState) (calls : List ExtCall) (msg : String)
    (hmsg : msg ≠ "") (hreg : s.j2k_allocated_ptrs = s0.j2k_allocated_ptrs)
    (hfreed : s.freed = s0.freed) (r : DecodeResult)
    (hr : r = { ret := false, state := set_error s (some msg), out_pixels := some 0,
                width := some 0, height := some 0, stride_bytes := some 0, calls := calls,
                pixels := [] }) :
    r.ret = false ∧ r.state.j2k_allocated_ptrs = s0.j2k_allocated_ptrs ∧
    r.state.freed = s0.freed ∧ r.state.last_j2k_error ≠ "" ∧
    r.state.last_j2k_error.length ≤ 511 ∧ r.pixels = [] ∧
    r.out_pixels = some 0 ∧ r.width = some 0 ∧ r.height = some 0 ∧
    r.stride_bytes = some 0 := by
  subst hr
  exact ⟨rfl, hreg, hfreed, snprintf512_ne_empty msg hmsg, length_snprintf512 msg, rfl, rfl,
    rfl, rfl, rfl⟩

/-- A call that fails argument validation: the first `return false` of the orchestrator,
taken before any output is written. -/
theorem decode_j2k_invalid (ext : OpjExternal) (s : NativeState) (a : DecodeArgs)
    (h : a.data = none ∨ a.data = some [] ∨ a.out_pixels = none ∨ a.width = none ∨
      a.height = none ∨ a.stride_bytes = none) :
    decode_j2k_rgba8_from_memory ext s a =
      { ret := false, state := set_error s (some "Invalid arguments."),
        out_pixels := a.out_pixels, width := a.width, height := a.height,
        stride_bytes := a.stride_bytes, calls := [], pixels := [] } := by
  unfold decode_j2k_rgba8_from_memory
  cases hd : a.data with
  | none => rfl
  | some data =>
    dsimp only
    have hc : (data.length == 0 || a.out_pixels.isNone || a.width.isNone ||
        a.height.isNone || a.stride_bytes.isNone) = true := by
      rcases h with h | h | h | h | h | h
      · rw [hd] at h; cases h
      · rw [hd] at h; cases h; rfl
      · rw [h]; simp
      · rw [h]; simp
      · rw [h]; simp
      · rw [h]; simp
    rw [if_pos hc]

/-- Every exit of the orchestrator for a call that passes argument validation: either a
failure exit with all outputs zeroed, or the success exit. -/
theorem decode_j2k_valid (ext : OpjExternal) (s : NativeState) (a : DecodeArgs)
    (data : List Nat) (hdata : a.data = some data) (hne : data ≠ [])
    (hout : a.out_pixels.isSome = true) (hwidth : a.width.isSome = true)
    (hheight : a.height.isSome = true) (hstride : a.stride_bytes.isSome = true) :
    ((decode_j2k_rgba8_from_memory ext s a).ret = false ∧
      (decode_j2k_rgba8_from_memory ext s a).state.j2k_allocated_ptrs =
        s.j2k_allocated_ptrs ∧
      (decode_j2k_rgba8_from_memory ext s a).state.freed = s.freed ∧
      (decode_j2k_rgba8_from_memory ext s a).state.last_j2k_error ≠ "" ∧
      (decode_j2k_rgba8_from_memory ext s a).state.last_j2k_error.length ≤ 511 ∧
      (decode_j2k_rgba8_from_memory ext s a).pixels = [] ∧
      (decode_j2k_rgba8_from_memory ext s a).out_pixels = some 0 ∧
      (decode_j2k_rgba8_from_memory ext s a).width = some 0 ∧
      (decode_j2k_rgba8_from_memory ext s a).height = some 0 ∧
      (decode_j2k_rgba8_from_memory ext s a).stride_bytes = some 0) ∨
    ((decode_j2k_rgba8_from_memory ext s a).ret = true ∧
      ∃ w h : Int, ∃ buffer : Nat,
        w = u32_to_int (int_to_u32 ((ext.image.x1 : Int) - (ext.image.x0 : Int))) ∧
        h = u32_to_int (int_to_u32 ((ext.image.y1 : Int) - (ext.image.y0 : Int))) ∧
        0 < w ∧ 0 < h ∧
        buffer = ext.malloc ((int_to_size (mul32 w 4) * int_to_size h) %
          18446744073709551616) ∧
        buffer ≠ 0 ∧
        (decode_j2k_rgba8_from_memory ext s a).out_pixels = some buffer ∧
        (decode_j2k_rgba8_from_memory ext s a).width = some w ∧
        (decode_j2k_rgba8_from_memory ext s a).height = some h ∧
        (decode_j2k_rgba8_from_memory ext s a).stride_bytes = some (mul32 w 4) ∧
        (decode_j2k_rgba8_from_memory ext s a).pixels = normalize_rgba8 ext.image w h ∧
        (decode_j2k_rgba8_from_memory ext s a).state.j2k_allocated_ptrs =
          insert buffer s.j2k_allocated_ptrs ∧
        (decode_j2k_rgba8_from_memory ext s a).state.freed = s.freed ∧
        (decode_j2k_rgba8_from_memory ext s a).state.last_j2k_error = "") := by
  have hlen : (data.length == 0) = false := by
    cases data with
    | nil => exact absurd rfl hne
    | cons _ _ => rfl
  have hc : ¬ ((data.length == 0 || a.out_pixels.isNone || a.width.isNone ||
      a.height.isNone || a.stride_bytes.isNone) = true) := by
    obtain ⟨v1, h1⟩ := Option.isSome_iff_exists.mp hout
    obtain ⟨v2, h2⟩ := Option.isSome_iff_exists.mp hwidth
    obtain ⟨v3, h3⟩ := Option.isSome_iff_exists.mp hheight
    obtain ⟨v4, h4⟩ := Option.isSome_iff_exists.mp hstride
    rw [hlen, h1, h2, h3, h4]
    simp
  have hreg0 : (clear_error s).j2k_allocated_ptrs = s.j2k_allocated_ptrs := rfl
  have hfreed0 : (clear_error s).freed = s.freed := rfl
  generalize hr : decode_j2k_rgba8_from_memory ext s a = r
  unfold decode_j2k_rgba8_from_memory at hr
  rw [hdata] at hr
  dsimp only at hr
  rw [if_neg hc] at hr
  have hreg1 : ∀ l1 : List (Option String),
      (List.foldl opj_error_callback (clear_error s) l1).j2k_allocated_ptrs =
        s.j2k_allocated_ptrs := fun l1 => by rw [foldl_callback_registry]; rfl
  have hreg2 : ∀ l1 l2 : List (Option String),
      (List.foldl opj_error_callback (List.foldl opj_error_callback (clear_error s) l1)
        l2).j2k_allocated_ptrs = s.j2k_allocated_ptrs :=
    fun l1 l2 => by rw [foldl_callback_registry]; exact hreg1 l1
  have hreg3 : ∀ l1 l2 l3 : List (Option String),
      (List.foldl opj_error_callback (List.foldl opj_error_callback
        (List.foldl opj_error_callback (clear_error s) l1) l2) l3).j2k_allocated_ptrs =
        s.j2k_allocated_ptrs :=
    fun l1 l2 l3 => by rw [foldl_callback_registry]; exact hreg2 l1 l2
  have hfreed1 : ∀ l1 : List (Option String),
      (List.foldl opj_error_callback (clear_error s) l1).freed = s.freed :=
    fun l1 => by rw [foldl_callback_freed]; rfl
  have hfreed2 : ∀ l1 l2 : List (Option String),
      (List.foldl opj_error_callback (List.foldl opj_error_callback (clear_error s) l1)
        l2).freed = s.freed :=
    fun l1 l2 => by rw [foldl_callback_freed]; exact hfreed1 l1
  have hfreed3 : ∀ l1 l2 l3 : List (Option String),
      (List.foldl opj_error_callback (List.foldl opj_error_callback
        (List.foldl opj_error_callback (clear_error s) l1) l2) l3).freed = s.freed :=
    fun l1 l2 l3 => by rw [foldl_callback_freed]; exact hfreed2 l1 l2
  by_cases c1 : (!is_jp2 data && !is_j2k_codestream data) = true
  · rw [if_pos c1] at hr
    exact Or.inl (fail_exit_facts s _ _ _ (by decide) hreg0 hfreed0 r hr.symm)
  rw [if_neg c1] at hr
  by_cases c2 : (!ext.create_decompress_ok) = true
  · rw [if_pos c2] at hr
    exact Or.inl (fail_exit_facts s _ _ _ (by decide) hreg0 hfreed0 r hr.symm)
  rw [if_neg c2] at hr
  by_cases c3 : (!ext.setup_decoder_ok) = true
  · rw [if_pos c3] at hr
    exact Or.inl (fail_exit_facts s _ _ _ (by decide) (hreg1 _) (hfreed1 _) r hr.symm)
  rw [if_neg c3] at hr
  by_cases c4 : (!ext.stream_create_ok) = true
  · rw [if_pos c4] at hr
    exact Or.inl (fail_exit_facts s _ _ _ (by decide) (hreg1 _) (hfreed1 _) r hr.symm)
  rw [if_neg c4] at hr
  by_cases c5 : (!ext.read_header_ok || !ext.header_image_ok) = true
  · rw [if_pos c5] at hr
    exact Or.inl (fail_exit_facts s _ _ _ (by decide) (hreg2 _ _) (hfreed2 _ _) r hr.symm)
  rw [if_neg c5] at hr
  by_cases c6 : (!ext.decode_ok) = true
  · rw [if_pos c6] at hr
    exact Or.inl (fail_exit_facts s _ _ _ (by decide) (hreg3 _ _ _) (hfreed3 _ _ _) r hr.symm)
  rw [if_neg c6] at hr
  obtain ⟨W, hW⟩ : ∃ W : Int,
      W = u32_to_int (int_to_u32 ((ext.image.x1 : Int) - (ext.image.x0 : Int))) := ⟨_, rfl⟩
  obtain ⟨H, hH⟩ : ∃ H : Int,
      H = u32_to_int (int_to_u32 ((ext.image.y1 : Int) - (ext.image.y0 : Int))) := ⟨_, rfl⟩
  rw [← hW, ← hH] at hr
  by_cases c7 : (decide (W ≤ 0) || decide (H ≤ 0)) = true
  · rw [if_pos c7] at hr
    exact Or.inl (fail_exit_facts s _ _ _ (by decide) (hreg3 _ _ _) (hfreed3 _ _ _) r hr.symm)
  rw [if_neg c7] at hr
  by_cases c8 : comps_of ext.image < 1
  · rw [if_pos c8] at hr
    exact Or.inl (fail_exit_facts s _ _ _ (by decide) (hreg3 _ _ _) (hfreed3 _ _ _) r hr.symm)
  rw [if_neg c8] at hr
  obtain ⟨B, hB⟩ : ∃ B : Nat,
      B = ext.malloc ((int_to_size (mul32 W 4) * int_to_size H) % 18446744073709551616) :=
    ⟨_, rfl⟩
  rw [← hB] at hr
  by_cases c9 : B = 0
  · rw [if_pos c9] at hr
    exact Or.inl (fail_exit_facts s _ _ _ (by decide) (hreg3 _ _ _) (hfreed3 _ _ _) r hr.symm)
  rw [if_neg c9] at hr
  right
  have hwh : 0 < W ∧ 0 < H := by
    simp only [Bool.or_eq_true, decide_eq_true_eq, not_or, not_le] at c7
    exact c7
  have e1 : r.ret = true := by rw [← hr]
  have e2 : r.out_pixels = some B := by rw [← hr]
  have e3 : r.width = some W := by rw [← hr]
  have e4 : r.height = some H := by rw [← hr]
  have e5 : r.stride_bytes = some (mul32 W 4) := by rw [← hr]
  have e6 : r.pixels = normalize_rgba8 ext.image W H := by rw [← hr]
  have e7 : r.state.j2k_allocated_ptrs = insert B s.j2k_allocated_ptrs := by
    rw [← hr]
    show insert B (List.foldl opj_error_callback _ _).j2k_allocated_ptrs = _
    rw [hreg3]
  have e8 : r.state.freed = s.freed := by
    rw [← hr]
    exact hfreed3 _ _ _
  have e9 : r.state.last_j2k_error = "" := by rw [← hr]; rfl
  rw [← hW, ← hH]
  exact ⟨e1, W, H, B, rfl, rfl, hwh.1, hwh.2, hB, c9, e2, e3, e4, e5, e6, e7, e8, e9⟩


/-- Every exit of `load_hdr_rgba`: a failure exit, which never stores into `*out_pixels`
and de-registers and frees the output buffer when it was already registered, or the
success exit. -/
theorem load_hdr_exits (ext : HdrExternal) (s : NativeState) (o : Nat) (w h : Int)
    (r : LoadResult) (hr : load_hdr_rgba ext s o w h = r) :
    (r.ret = false ∧ r.out_pixels = o ∧ r.state.last_hdr_error ≠ "" ∧
      r.state.last_hdr_error.length ≤ 511 ∧ r.pixels = [] ∧
      (r.width = w ∨ ext.header_width = some r.width) ∧
      (r.height = h ∨ ext.header_height = some r.height) ∧
      ((ext.fopen_ok = false ∧ r.width = w ∧ r.height = h) ∨ ext.fopen_ok = true) ∧
      ((r.state.hdr_allocated_ptrs = s.hdr_allocated_ptrs ∧ r.state.freed = s.freed) ∨
        ∃ n b : Nat, b = ext.malloc_buffer n ∧ b ≠ 0 ∧
          r.state.hdr_allocated_ptrs = (insert b s.hdr_allocated_ptrs).erase b ∧
          (r.state.freed = s.freed ++ [b] ∨
            ∃ m : Nat, r.state.freed = s.freed ++ [b, ext.malloc_rgb m]))) ∨
    (r.ret = true ∧ r.state.last_hdr_error = "" ∧
      ∃ n m : Nat, ext.malloc_buffer n ≠ 0 ∧ r.out_pixels = ext.malloc_buffer n ∧
        r.state.hdr_allocated_ptrs = insert (ext.malloc_buffer n) s.hdr_allocated_ptrs ∧
        r.state.freed = s.freed ++ [ext.malloc_rgb m]) := by
  unfold load_hdr_rgba at hr
  by_cases c1 : (!ext.fopen_ok) = true
  · rw [if_pos c1] at hr
    subst hr
    have hf : ext.fopen_ok = false := by
      cases hx : ext.fopen_ok
      · rfl
      · rw [hx] at c1; exact absurd c1 (by decide)
    exact Or.inl ⟨rfl, rfl, snprintf512_ne_empty _ (by decide), length_snprintf512 _, rfl,
      Or.inl rfl, Or.inl rfl, Or.inl ⟨hf, rfl, rfl⟩, Or.inl ⟨rfl, rfl⟩⟩
  rw [if_neg c1] at hr
  have hf : ext.fopen_ok = true := by
    cases hx : ext.fopen_ok
    · rw [hx] at c1; exact absurd rfl c1
    · rfl
  dsimp only at hr
  obtain ⟨W, hW⟩ : ∃ W : Int, W = ext.header_width.getD w := ⟨_, rfl⟩
  obtain ⟨H, hH⟩ : ∃ H : Int, H = ext.header_height.getD h := ⟨_, rfl⟩
  rw [← hW, ← hH] at hr
  have hWw : W = w ∨ ext.header_width = some W := by
    cases hx : ext.header_width with
    | none => rw [hx] at hW; exact Or.inl hW
    | some v => rw [hx] at hW; rw [hW]; exact Or.inr rfl
  have hHh : H = h ∨ ext.header_height = some H := by
    cases hx : ext.header_height with
    | none => rw [hx] at hH; exact Or.inl hH
    | some v => rw [hx] at hH; rw [hH]; exact Or.inr rfl
  by_cases c2 : ext.read_header_ret < 0
  · rw [if_pos c2] at hr
    subst hr
    exact Or.inl ⟨rfl, rfl, snprintf512_ne_empty _ (by decide), length_snprintf512 _, rfl,
      hWw, hHh, Or.inr hf, Or.inl ⟨rfl, rfl⟩⟩
  rw [if_neg c2] at hr
  obtain ⟨n, hn⟩ : ∃ n : Nat,
      n = (4 * int_to_size (mul32 W H) * 4) % 18446744073709551616 := ⟨_, rfl⟩
  obtain ⟨m, hm⟩ : ∃ m : Nat,
      m = (4 * int_to_size (mul32 W H) * 3) % 18446744073709551616 := ⟨_, rfl⟩
  rw [← hn, ← hm] at hr
  by_cases c3 : ext.malloc_buffer n = 0
  · rw [if_pos c3] at hr
    subst hr
    exact Or.inl ⟨rfl, rfl, snprintf512_ne_empty _ (by decide), length_snprintf512 _, rfl,
      hWw, hHh, Or.inr hf, Or.inl ⟨rfl, rfl⟩⟩
  rw [if_neg c3] at hr
  by_cases c4 : ext.malloc_rgb m = 0
  · rw [if_pos c4] at hr
    subst hr
    exact Or.inl ⟨rfl, rfl, snprintf512_ne_empty _ (by decide), length_snprintf512 _, rfl,
      hWw, hHh, Or.inr hf, Or.inr ⟨n, _, rfl, c3, rfl, Or.inl rfl⟩⟩
  rw [if_neg c4] at hr
  by_cases c5 : ext.read_pixels_ret < 0
  · rw [if_pos c5] at hr
    subst hr
    exact Or.inl ⟨rfl, rfl, snprintf512_ne_empty _ (by decide), length_snprintf512 _, rfl,
      hWw, hHh, Or.inr hf, Or.inr ⟨n, _, rfl, c3, rfl, Or.inr ⟨m, rfl⟩⟩⟩
  rw [if_neg c5] at hr
  subst hr
  exact Or.inr ⟨rfl, rfl, n, m, c3, rfl, rfl, rfl⟩

theorem exr_exception_message_ne_empty (e : ExrException) : exr_exception_message e ≠ "" := by
  cases e with
  | other => decide
  | std_exception what =>
    intro he
    have hd : (exr_exception_message (ExrException.std_exception what)).data = [] := by
      rw [he]
    have hd2 : ("EXR exception: " ++ what).data = [] := hd
    rw [String.data_append] at hd2
    have hd3 : ("EXR exception: " : String).data = [] := (List.append_eq_nil.mp hd2).1
    exact absurd hd3 (by decide)

theorem exr_init_once_registry (ext : ExrExternal) (s : NativeState) :
    (exr_init_once ext s).1.exr_allocated_ptrs = s.exr_allocated_ptrs ∧
    (exr_init_once ext s).1.freed = s.freed := by
  unfold exr_init_once
  by_cases c : s.exr_init_flag = true
  · rw [if_pos c]; exact ⟨rfl, rfl⟩
  · rw [if_neg c]; exact ⟨rfl, rfl⟩

/-- Every exit of `load_exr_rgba`: an exception exit (everything zeroed), the allocation
failure exit (pointer null, dimensions left as stored), or the success exit. -/
theorem load_exr_exits (ext : ExrExternal) (s : NativeState) (o : Nat) (w h : Int)
    (r : LoadResult) (hr : load_exr_rgba ext s o w h = r) :
    (r.ret = false ∧ r.out_pixels = 0 ∧ r.state.last_exr_error ≠ "" ∧
      r.state.last_exr_error.length ≤ 511 ∧ r.pixels = [] ∧
      r.state.exr_allocated_ptrs = s.exr_allocated_ptrs ∧ r.state.freed = s.freed ∧
      (((ext.open_exception ≠ none ∨ ext.read_exception ≠ none) ∧ r.width = 0 ∧
          r.height = 0) ∨
        (ext.open_exception = none ∧ ext.read_exception = none ∧
          r.width = add32 (sub32 ext.max_x ext.min_x) 1 ∧
          r.height = add32 (sub32 ext.max_y ext.min_y) 1))) ∨
    (r.ret = true ∧ r.state.last_exr_error = "" ∧
      ∃ n : Nat, ext.malloc n ≠ 0 ∧ r.out_pixels = ext.malloc n ∧
        r.state.exr_allocated_ptrs = insert (ext.malloc n) s.exr_allocated_ptrs ∧
        r.state.freed = s.freed ∧
        r.width = add32 (sub32 ext.max_x ext.min_x) 1 ∧
        r.height = add32 (sub32 ext.max_y ext.min_y) 1) := by
  unfold load_exr_rgba at hr
  dsimp only at hr
  obtain ⟨hreg, hfreed⟩ := exr_init_once_registry ext s
  cases ho : ext.open_exception with
  | some e =>
    rw [ho] at hr
    dsimp only at hr
    subst hr
    exact Or.inl ⟨rfl, rfl, snprintf512_ne_empty _ (exr_exception_message_ne_empty e),
      length_snprintf512 _, rfl, hreg, hfreed, Or.inl ⟨Or.inl (by simp), rfl, rfl⟩⟩
  | none =>
    rw [ho] at hr
    dsimp only at hr
    cases hx : ext.read_exception with
    | some e =>
      rw [hx] at hr
      dsimp only at hr
      subst hr
      exact Or.inl ⟨rfl, rfl, snprintf512_ne_empty _ (exr_exception_message_ne_empty e),
        length_snprintf512 _, rfl, hreg, hfreed, Or.inl ⟨Or.inr (by simp), rfl, rfl⟩⟩
    | none =>
      rw [hx] at hr
      dsimp only at hr
      obtain ⟨n, hn⟩ : ∃ n : Nat,
          n = (4 * int_to_size (add32 (sub32 ext.max_x ext.min_x) 1) *
            int_to_size (add32 (sub32 ext.max_y ext.min_y) 1) * 4) %
            18446744073709551616 := ⟨_, rfl⟩
      rw [← hn] at hr
      by_cases c : ext.malloc n = 0
      · rw [if_pos c] at hr
        subst hr
        exact Or.inl ⟨rfl, c, snprintf512_ne_empty _ (by decide), length_snprintf512 _, rfl,
          hreg, hfreed, Or.inr ⟨rfl, rfl, rfl, rfl⟩⟩
      · rw [if_neg c] at hr
        subst hr
        refine Or.inr ⟨rfl, rfl, n, c, rfl, ?_, hfreed, rfl, rfl⟩
        show insert (ext.malloc n) (exr_init_once ext s).1.exr_allocated_ptrs = _
        rw [hreg]


/-! ## Shapes of the J2K call and of its allocation -/

theorem wrap32_range (z : Int) : -2147483648 ≤ wrap32 z ∧ wrap32 z ≤ 2147483647 := by
  unfold wrap32; omega

theorem int_to_size_natCast (n : Nat) (h : n < 9223372036854775808) :
    int_to_size (n : Int) = n := by
  have e := int_to_size_exact (n : Int) (Int.ofNat_nonneg n) (by exact_mod_cast h)
  exact_mod_cast e

/-- Within the `int` range of `w * 4`, the stride is `w * 4`, the allocation request is
`h * stride` bytes and so is the number of bytes the normalizer writes. -/
theorem alloc_size_exact (w h : Int) (hw : 0 < w) (hh : 0 < h)
    (hfit : 4 * w ≤ 2147483647) (hhmax : h ≤ 2147483647) :
    mul32 w 4 = w * 4 ∧
    (int_to_size (mul32 w 4) * int_to_size h) % 18446744073709551616 =
      (h * (w * 4)).toNat ∧
    4 * (w.toNat * h.toNat) = (h * (w * 4)).toNat := by
  obtain ⟨W, rfl⟩ := Int.eq_ofNat_of_zero_le (le_of_lt hw)
  obtain ⟨H, rfl⟩ := Int.eq_ofNat_of_zero_le (le_of_lt hh)
  have hW : W * 4 < 2147483648 := by omega
  have hH : H < 2147483648 := by omega
  have hmul : mul32 (W : Int) 4 = (W : Int) * 4 := by
    unfold mul32
    exact wrap32_of_range _ (by omega) (by omega)
  have hcast : ((W : Int) * 4) = ((W * 4 : Nat) : Int) := by push_cast; rfl
  have hs1 : int_to_size ((W : Int) * 4) = W * 4 := by
    rw [hcast]
    exact int_to_size_natCast _ (by omega)
  have hs2 : int_to_size (H : Int) = H := int_to_size_natCast _ (by omega)
  have hprod : W * 4 * H ≤ 2147483648 * 2147483648 :=
    Nat.mul_le_mul (Nat.le_of_lt hW) (Nat.le_of_lt hH)
  have htn : ((H : Int) * ((W : Int) * 4)).toNat = H * (W * 4) := by
    have e : ((H : Int) * ((W : Int) * 4)) = ((H * (W * 4) : Nat) : Int) := by push_cast; rfl
    rw [e, Int.toNat_natCast]
  refine ⟨hmul, ?_, ?_⟩
  · rw [hmul, hs1, hs2, htn, Nat.mod_eq_of_lt (lt_of_le_of_lt hprod (by decide)), Nat.mul_comm]
  · rw [htn, Int.toNat_natCast, Int.toNat_natCast, Nat.mul_comm H, Nat.mul_assoc,
      Nat.mul_comm 4, Nat.mul_assoc, Nat.mul_comm 4]

/-- The arguments either fail the validation of the orchestrator or pass it. -/
theorem decode_j2k_args_cases (a : DecodeArgs) :
    (a.data = none ∨ a.data = some [] ∨ a.out_pixels = none ∨ a.width = none ∨
      a.height = none ∨ a.stride_bytes = none) ∨
    (∃ data : List Nat, a.data = some data ∧ data ≠ [] ∧ a.out_pixels.isSome = true ∧
      a.width.isSome = true ∧ a.height.isSome = true ∧ a.stride_bytes.isSome = true) := by
  obtain ⟨d, rd, o, w, h, st⟩ := a
  cases d with
  | none => exact Or.inl (Or.inl rfl)
  | some data =>
    cases data with
    | nil => exact Or.inl (Or.inr (Or.inl rfl))
    | cons b bs =>
      cases o with
      | none => exact Or.inl (Or.inr (Or.inr (Or.inl rfl)))
      | some o =>
        cases w with
        | none => exact Or.inl (Or.inr (Or.inr (Or.inr (Or.inl rfl))))
        | some w =>
          cases h with
          | none => exact Or.inl (Or.inr (Or.inr (Or.inr (Or.inr (Or.inl rfl)))))
          | some h =>
            cases st with
            | none => exact Or.inl (Or.inr (Or.inr (Or.inr (Or.inr (Or.inr rfl)))))
            | some st =>
              exact Or.inr ⟨b :: bs, rfl, List.cons_ne_nil b bs, rfl, rfl, rfl, rfl⟩

/-- Every exit of the orchestrator, for any arguments: the state it leaves. -/
theorem decode_j2k_exits (ext : OpjExternal) (s : NativeState) (a : DecodeArgs) :
    ((decode_j2k_rgba8_from_memory ext s a).ret = false ∧
      (decode_j2k_rgba8_from_memory ext s a).state.j2k_allocated_ptrs =
        s.j2k_allocated_ptrs ∧
      (decode_j2k_rgba8_from_memory ext s a).state.freed = s.freed ∧
      (decode_j2k_rgba8_from_memory ext s a).state.last_j2k_error ≠ "" ∧
      (decode_j2k_rgba8_from_memory ext s a).state.last_j2k_error.length ≤ 511) ∨
    ((decode_j2k_rgba8_from_memory ext s a).ret = true ∧
      (decode_j2k_rgba8_from_memory ext s a).state.last_j2k_error = "" ∧
      (decode_j2k_rgba8_from_memory ext s a).state.freed = s.freed ∧
      ∃ buffer : Nat, buffer ≠ 0 ∧
        (decode_j2k_rgba8_from_memory ext s a).out_pixels = some buffer ∧
        (decode_j2k_rgba8_from_memory ext s a).state.j2k_allocated_ptrs =
          insert buffer s.j2k_allocated_ptrs) := by
  rcases decode_j2k_args_cases a with hinv | ⟨data, hdata, hne, h1, h2, h3, h4⟩
  · rw [decode_j2k_invalid ext s a hinv]
    exact Or.inl ⟨rfl, rfl, rfl, snprintf512_ne_empty _ (by decide), length_snprintf512 _⟩
  · rcases decode_j2k_valid ext s a data hdata hne h1 h2 h3 h4 with hf | hs
    · exact Or.inl ⟨hf.1, hf.2.1, hf.2.2.1, hf.2.2.2.1, hf.2.2.2.2.1⟩
    · obtain ⟨hret, w, h, buffer, -, -, -, -, -, hb, ho, -, -, -, -, hreg, hfreed, herr⟩ := hs
      exact Or.inr ⟨hret, herr, hfreed, buffer, hb, ho, hreg⟩

/-- The allocation-failure exit of `load_exr_rgba` on a 2 by 2 data window: the pointer is
null but `*width` and `*height` keep the dimensions stored before the allocation. -/
theorem load_exr_no_memory_keeps_dimensions :
    (load_exr_rgba exr_no_memory state_three_buffers 7 7 7).ret = false ∧
    (load_exr_rgba exr_no_memory state_three_buffers 7 7 7).out_pixels = 0 ∧
    (load_exr_rgba exr_no_memory state_three_buffers 7 7 7).width = 2 ∧
    (load_exr_rgba exr_no_memory state_three_buffers 7 7 7).height = 2 := by
  decide


/-! ## Scale parameters and stream cursor -/

/-- The parameters returned by `make_scale_params`, for any declared precision: an
effective precision `n` in `[1, 30]` and `maxv = 2 ^ n - 1`. -/
theorem make_scale_params_cases (comp : opj_image_comp_t) :
    ∃ n : Nat, 1 ≤ n ∧ n ≤ 30 ∧ (make_scale_params comp).prec = (n : Int) ∧
      (make_scale_params comp).maxv = 2 ^ n - 1 := by
  simp only [make_scale_params]
  generalize u32_to_int comp.prec = d
  generalize (comp.sgnd != 0) = sg
  by_cases h0 : d ≤ 0
  · rw [if_pos h0]
    refine ⟨8, by decide, by decide, rfl, ?_⟩
    show (255 : Int) = 2 ^ 8 - 1
    decide
  · rw [if_neg h0]
    by_cases h31 : d ≥ 31
    · rw [if_pos h31]
      refine ⟨30, by decide, by decide, rfl, ?_⟩
      show sub32 (shl32 1 30) 1 = 2 ^ 30 - 1
      decide
    · rw [if_neg h31]
      obtain ⟨n, rfl⟩ := Int.eq_ofNat_of_zero_le (by omega : 0 ≤ d)
      have hn1 : 1 ≤ n := by omega
      have hn30 : n ≤ 30 := by omega
      refine ⟨n, hn1, hn30, ?_⟩
      interval_cases n <;> cases sg <;> decide

/-- One callback call keeps the cursor within the data and leaves `data` and `size`
untouched. -/
theorem stream_after_invariant (ms : MemStream) (c : StreamCall)
    (hpos : ms.pos ≤ ms.size) (hsize : ms.size < 18446744073709551616) :
    (stream_after ms c).pos ≤ (stream_after ms c).size ∧
    (stream_after ms c).data = ms.data ∧ (stream_after ms c).size = ms.size := by
  have hrem : size_sub ms.size ms.pos = ms.size - ms.pos := size_sub_exact _ _ hpos hsize
  cases c with
  | read n =>
    obtain ⟨d, sz, ps⟩ := ms
    dsimp only at hpos hsize hrem
    unfold stream_after mem_read
    dsimp only
    cases d with
    | none => exact ⟨hpos, rfl, rfl⟩
    | some data =>
      dsimp only
      rw [hrem]
      by_cases hgt : n > sz - ps
      · rw [if_pos hgt]
        by_cases hz : sz - ps > 0
        · rw [if_pos hz]
          refine ⟨?_, rfl, rfl⟩
          show size_add ps (sz - ps) ≤ sz
          rw [size_add_exact _ _ (by omega)]
          omega
        · rw [if_neg hz]
          exact ⟨hpos, rfl, rfl⟩
      · rw [if_neg hgt]
        by_cases hz : n > 0
        · rw [if_pos hz]
          refine ⟨?_, rfl, rfl⟩
          show size_add ps n ≤ sz
          rw [size_add_exact _ _ (by omega)]
          omega
        · rw [if_neg hz]
          exact ⟨hpos, rfl, rfl⟩
  | skip n =>
    unfold stream_after mem_skip
    dsimp only
    by_cases h0 : n ≤ 0
    · rw [if_pos h0]
      exact ⟨hpos, rfl, rfl⟩
    · rw [if_neg h0, hrem]
      by_cases hgt : int_to_size n > ms.size - ms.pos
      · rw [if_pos hgt]
        exact ⟨hpos, rfl, rfl⟩
      · rw [if_neg hgt]
        refine ⟨?_, rfl, rfl⟩
        show size_add ms.pos (int_to_size n) ≤ ms.size
        rw [size_add_exact _ _ (by omega)]
        omega
  | seek n =>
    unfold stream_after mem_seek
    dsimp only
    by_cases h0 : n < 0
    · rw [if_pos h0]
      exact ⟨hpos, rfl, rfl⟩
    · rw [if_neg h0]
      by_cases hgt : int_to_size n > ms.size
      · rw [if_pos hgt]
        exact ⟨hpos, rfl, rfl⟩
      · rw [if_neg hgt]
        exact ⟨by show int_to_size n ≤ ms.size; omega, rfl, rfl⟩

/-- A finite sequence of callback calls keeps the cursor within the data and leaves `data`
and `size` untouched. -/
theorem stream_after_calls_invariant (cs : List StreamCall) (ms : MemStream)
    (hpos : ms.pos ≤ ms.size) (hsize : ms.size < 18446744073709551616) :
    (stream_after_calls ms cs).pos ≤ (stream_after_calls ms cs).size ∧
    (stream_after_calls ms cs).data = ms.data ∧
    (stream_after_calls ms cs).size = ms.size := by
  induction cs generalizing ms with
  | nil => exact ⟨hpos, rfl, rfl⟩
  | cons c cs ih =>
    obtain ⟨h1, h2, h3⟩ := stream_after_invariant ms c hpos hsize
    have hs : (stream_after ms c).size < 18446744073709551616 := by rw [h3]; exact hsize
    obtain ⟨i1, i2, i3⟩ := ih (stream_after ms c) h1 hs
    show (stream_after_calls (stream_after ms c) cs).pos ≤
        (stream_after_calls (stream_after ms c) cs).size ∧
      (stream_after_calls (stream_after ms c) cs).data = ms.data ∧
      (stream_after_calls (stream_after ms c) cs).size = ms.size
    exact ⟨i1, i2.trans h2, i3.trans h3⟩

/-! ## Checked properties -/

/-- C1. Fast path and slow path agree: for an image of output size `w > 0`, `h > 0` on which
the fast path is selected (every participating component, and the alpha component when
present, has `dx = 1`, `dy = 1` and the output width and height), and whose pixel count is
within the range of the `int` index of the code, the slow-path normalization writes
byte for byte the buffer of the fast-path normalization. -/
theorem fast_slow_agree (image : opj_image_t) (w h : Int) (hw : 0 < w) (hh : 0 < h)
    (hfit : w * h ≤ INT_MAX) (hfast : fast_path image w h = true) :
    normalize_slow image w h = normalize_fast image w h := by
  unfold normalize_slow normalize_fast
  exact write_pixels_congr _ _ w h
    (fun x y hx0 hx hy0 hy => slow_pixel_eq_fast_pixel image w h hw hh hfit hfast x y hx0 hx hy0 hy)

/-- Witness of C1 on the 2 by 2 RGB image: the hypotheses hold and the two paths write the
same sixteen bytes. -/
theorem fast_slow_agree_witness :
    fast_path image_2x2_rgb 2 2 = true ∧
    normalize_slow image_2x2_rgb 2 2 = normalize_fast image_2x2_rgb 2 2 ∧
    normalize_fast image_2x2_rgb 2 2 =
      [255, 0, 0, 255, 0, 255, 0, 255, 0, 0, 255, 255, 255, 255, 255, 255] :=
  ⟨by decide,
   fast_slow_agree image_2x2_rgb 2 2 (by decide) (by decide) (by decide) (by decide),
   by decide⟩

/-- C2. Registry round trip and double free, for each codec family: the first free of a
non-null member `p` removes exactly `p` from the family's registry, leaves every other
member and the other registries in place and passes `p` to `free` once, with no diagnostic;
a second free of `p` changes no registry, frees nothing and prints the unknown-pointer
diagnostic. -/
theorem free_roundtrip (f : Family) (s : NativeState) (p : Nat) (hp : p ≠ 0)
    (hmem : p ∈ registry f s) :
    registry f (free_pixels f s p) = (registry f s).erase p ∧
    p ∉ registry f (free_pixels f s p) ∧
    (∀ q : Nat, q ≠ p → (q ∈ registry f (free_pixels f s p) ↔ q ∈ registry f s)) ∧
    (∀ g : Family, g ≠ f → registry g (free_pixels f s p) = registry g s) ∧
    (free_pixels f s p).freed = s.freed ++ [p] ∧
    (free_pixels f s p).stdout = s.stdout ∧
    (∀ g : Family, registry g (free_pixels f (free_pixels f s p) p) =
        registry g (free_pixels f s p)) ∧
    (free_pixels f (free_pixels f s p) p).freed = (free_pixels f s p).freed ∧
    (free_pixels f (free_pixels f s p) p).stdout =
        (free_pixels f s p).stdout ++ [Diagnostic.unknown_pointer p] := by
  cases f <;>
    simp_all [registry, free_pixels, free_j2k_pixels, free_hdr_pixels, free_exr_pixels,
      Finset.mem_erase] <;>
    intro g hg <;> cases g <;> simp_all

/-- Witness of C2: freeing the live HDR buffer 4096 twice. -/
theorem free_roundtrip_witness :
    4096 ∈ registry Family.hdr state_three_buffers ∧
    registry Family.hdr (free_pixels Family.hdr state_three_buffers 4096) =
      (registry Family.hdr state_three_buffers).erase 4096 ∧
    (free_pixels Family.hdr (free_pixels Family.hdr state_three_buffers 4096) 4096).freed =
      [4096] :=
  ⟨by decide,
   (free_roundtrip Family.hdr state_three_buffers 4096 (by decide) (by decide)).1,
   by decide⟩

/-- C3. Foreign-pointer free is a no-op: when `p` is null or not a member of the family's
registry (whatever the other registries hold), the free entry point passes nothing to
`free`, leaves all three registries as they were and prints one diagnostic; for every
pointer `q`, `free` is called on `q` if and only if `q` is a non-null member, and nothing
is freed if and only if `q` is null or not a member. -/
theorem free_foreign_noop (f : Family) (s : NativeState) (p : Nat)
    (h : p = 0 ∨ p ∉ registry f s) :
    (free_pixels f s p).freed = s.freed ∧
    (∀ g : Family, registry g (free_pixels f s p) = registry g s) ∧
    (free_pixels f s p).stdout.length = s.stdout.length + 1 ∧
    (∀ q : Nat, ((free_pixels f s q).freed = s.freed ++ [q] ↔ (q ≠ 0 ∧ q ∈ registry f s))) ∧
    (∀ q : Nat, ((free_pixels f s q).freed = s.freed ↔ (q = 0 ∨ q ∉ registry f s))) := by
  have noop : ∀ q : Nat, (q = 0 ∨ q ∉ registry f s) →
      (free_pixels f s q).freed = s.freed ∧
      (∀ g : Family, registry g (free_pixels f s q) = registry g s) ∧
      (free_pixels f s q).stdout.length = s.stdout.length + 1 := by
    intro q hq
    by_cases hq0 : q = 0
    · subst hq0
      exact free_pixels_null f s
    · exact free_pixels_nonmember f s q hq0 (hq.resolve_left hq0)
  refine ⟨(noop p h).1, (noop p h).2.1, (noop p h).2.2, ?_, ?_⟩
  · intro q
    constructor
    · intro hfreed
      by_contra hnot
      have hq : q = 0 ∨ q ∉ registry f s := by tauto
      rw [(noop q hq).1] at hfreed
      simp at hfreed
    · rintro ⟨hq0, hqm⟩
      exact free_pixels_member f s q hq0 hqm
  · intro q
    constructor
    · intro hfreed
      by_contra hnot
      have hq : q ≠ 0 ∧ q ∈ registry f s := by tauto
      rw [free_pixels_member f s q hq.1 hq.2] at hfreed
      simp at hfreed
    · intro hq
      exact (noop q hq).1

/-- Witness of C3: the live HDR buffer 4096 handed to the J2K free entry point. -/
theorem free_foreign_noop_witness :
    4096 ∈ registry Family.hdr state_three_buffers ∧
    4096 ∉ registry Family.j2k state_three_buffers ∧
    (free_pixels Family.j2k state_three_buffers 4096).freed = state_three_buffers.freed ∧
    (∀ g : Family, registry g (free_pixels Family.j2k state_three_buffers 4096) =
      registry g state_three_buffers) :=
  ⟨by decide, by decide,
   (free_foreign_noop Family.j2k state_three_buffers 4096 (Or.inr (by decide))).1,
   (free_foreign_noop Family.j2k state_three_buffers 4096 (Or.inr (by decide))).2.1⟩

/-- C4, evaluated at a failing input. For a 24-bit unsigned component the full-scale sample
`2 ^ 24 - 1` is rescaled by the code to `0`, while the formula of the claim gives `255`:
the sum `v * 255 + maxv / 2` exceeds `INT_MAX`, so the 32-bit `int` arithmetic of
`scale_to_u8` does not compute it without loss. -/
theorem scale_to_u8_overflow_at_24_bits :
    make_scale_params (comp_of_prec 24 false) =
      { prec := 24, sgnd := false, maxv := 16777215 } ∧
    scale_to_u8 16777215 (make_scale_params (comp_of_prec 24 false)) = 0 ∧
    scaleToByte_spec 16777215 24 false = 255 ∧
    INT_MAX < (16777215 : Int) * 255 + 16777215 / 2 := by
  decide

/-- C5. Identity at native depth: with the parameters of an 8-bit unsigned component
(`prec = 8`, `sgnd = false`, `maxv = 255`, which is what `make_scale_params` derives for
such a component), `scale_to_u8` returns every sample `v` in `[0, 255]` unchanged. -/
theorem scale_to_u8_identity_8bit (v : Int) (h0 : 0 ≤ v) (h255 : v ≤ 255) :
    make_scale_params (comp_of_prec 8 false) = { prec := 8, sgnd := false, maxv := 255 } ∧
    (scale_to_u8 v { prec := 8, sgnd := false, maxv := 255 } : Int) = v := by
  refine ⟨by decide, ?_⟩
  rw [scale_to_u8_id v h0 h255]
  exact Int.toNat_of_nonneg h0

/-- Witness of C5 at the sample 200. -/
theorem scale_to_u8_identity_8bit_witness :
    (scale_to_u8 200 { prec := 8, sgnd := false, maxv := 255 } : Int) = 200 :=
  (scale_to_u8_identity_8bit 200 (by decide) (by decide)).2

/-- C6. Signed midpoint: for a 12-bit signed component `make_scale_params` gives `prec = 12`,
`sgnd = true`, `maxv = 4095`, and `scale_to_u8` maps the sample `0` to `128`, which is
within 1 of 128. -/
theorem signed_midpoint_12bit (comp : opj_image_comp_t) (hprec : comp.prec = 12)
    (hsgnd : comp.sgnd ≠ 0) :
    make_scale_params comp = { prec := 12, sgnd := true, maxv := 4095 } ∧
    scale_to_u8 0 (make_scale_params comp) = 128 ∧
    Int.natAbs ((scale_to_u8 0 (make_scale_params comp) : Int) - 128) ≤ 1 := by
  have h : make_scale_params comp = { prec := 12, sgnd := true, maxv := 4095 } := by
    have hs : (comp.sgnd != 0) = true := by simp [hsgnd]
    simp only [make_scale_params, hprec, hs]
    decide
  rw [h]
  decide

/-- Witness of C6 on a concrete 12-bit signed component. -/
theorem signed_midpoint_12bit_witness :
    scale_to_u8 0 (make_scale_params (comp_of_prec 12 true)) = 128 :=
  (signed_midpoint_12bit (comp_of_prec 12 true) (by decide) (by decide)).2.1

/-- C7 as stated fails: a declared precision of 0 gives the effective precision 8 with
`maxv = 255`, not the clamped value 1. -/
theorem make_scale_params_prec_zero :
    (make_scale_params (comp_of_prec 0 false)).prec = 8 ∧
    (make_scale_params (comp_of_prec 0 false)).maxv = 255 ∧
    clamp_int ((comp_of_prec 0 false).prec : Int) 1 30 = 1 ∧
    (make_scale_params (comp_of_prec 0 false)).prec ≠
      clamp_int ((comp_of_prec 0 false).prec : Int) 1 30 := by
  decide

/-- C7, amended. The effective precision computed by `make_scale_params` is 8 when the
declared precision, converted to `int`, is 0 or negative, and is that value clamped to
`[1, 30]` otherwise; `maxv` is `2 ^ p - 1` for the effective precision `p`, and the
signedness flag is kept. -/
theorem make_scale_params_effective (comp : opj_image_comp_t) :
    (make_scale_params comp).prec =
        (if u32_to_int comp.prec ≤ 0 then 8 else clamp_int (u32_to_int comp.prec) 1 30) ∧
    (make_scale_params comp).maxv = 2 ^ (make_scale_params comp).prec.toNat - 1 ∧
    (make_scale_params comp).sgnd = (comp.sgnd != 0) := by
  simp only [make_scale_params]
  generalize u32_to_int comp.prec = d
  generalize (comp.sgnd != 0) = sg
  by_cases h0 : d ≤ 0
  · rw [if_pos h0, if_pos h0]
    refine ⟨rfl, ?_, rfl⟩
    show (255 : Int) = 2 ^ (8 : Int).toNat - 1
    decide
  · rw [if_neg h0, if_neg h0]
    by_cases h31 : d ≥ 31
    · rw [if_pos h31]
      have h1 : ¬ d < 1 := by omega
      have h30 : d > 30 := by omega
      refine ⟨?_, ?_, rfl⟩
      · simp only [clamp_int, if_neg h1, if_pos h30]
      · show sub32 (shl32 1 30) 1 = 2 ^ (30 : Int).toNat - 1
        decide
    · rw [if_neg h31]
      obtain ⟨n, rfl⟩ := Int.eq_ofNat_of_zero_le (by omega : 0 ≤ d)
      have hn1 : 1 ≤ n := by omega
      have hn30 : n ≤ 30 := by omega
      interval_cases n <;> cases sg <;> decide

/-- C8. The format sniffer is exact: `is_jp2` holds exactly when the input has at least 12
bytes and starts with the JP2 signature box, `is_j2k_codestream` exactly when it has at
least 2 bytes and starts with `FF 4F`; each result is already determined by that prefix;
and the input is classified as unrecognized exactly when neither predicate holds. -/
theorem sniffer_exact (data : List Nat) :
    (is_jp2 data = true ↔ (12 ≤ data.length ∧ data.take 12 = JP2_SIGNATURE)) ∧
    (is_j2k_codestream data = true ↔ (2 ≤ data.length ∧ data.take 2 = SOC_MARKER)) ∧
    is_jp2 data = is_jp2 (data.take 12) ∧
    is_j2k_codestream data = is_j2k_codestream (data.take 2) ∧
    (classify data = Container.unrecognized ↔
      (is_jp2 data = false ∧ is_j2k_codestream data = false)) := by
  refine ⟨?_, ?_, ?_, ?_, ?_⟩
  · rcases data with _ | ⟨a0, _ | ⟨a1, _ | ⟨a2, _ | ⟨a3, _ | ⟨a4, _ | ⟨a5, _ | ⟨a6, _ | ⟨a7,
      _ | ⟨a8, _ | ⟨a9, _ | ⟨a10, _ | ⟨a11, rest⟩⟩⟩⟩⟩⟩⟩⟩⟩⟩⟩⟩ <;>
      simp [is_jp2, JP2_SIGNATURE]
    tauto
  · rcases data with _ | ⟨a0, _ | ⟨a1, rest⟩⟩ <;> simp [is_j2k_codestream, SOC_MARKER]
  · rcases data with _ | ⟨a0, _ | ⟨a1, _ | ⟨a2, _ | ⟨a3, _ | ⟨a4, _ | ⟨a5, _ | ⟨a6, _ | ⟨a7,
      _ | ⟨a8, _ | ⟨a9, _ | ⟨a10, _ | ⟨a11, rest⟩⟩⟩⟩⟩⟩⟩⟩⟩⟩⟩⟩ <;>
      simp [is_jp2]
  · rcases data with _ | ⟨a0, _ | ⟨a1, rest⟩⟩ <;> simp [is_j2k_codestream]
  · unfold classify
    cases is_jp2 data <;> cases is_j2k_codestream data <;> simp

/-- C9. Sniffer rejection fails cleanly: for a non-empty input that matches neither
signature, with all output parameters non-null, the decode returns false, leaves a
non-empty error message, makes no call to the external decoder or to `malloc`, writes no
pixel, and leaves the J2K registry and the list of freed pointers unchanged. -/
theorem decode_rejects_unrecognized (ext : OpjExternal) (s : NativeState) (a : DecodeArgs)
    (data : List Nat) (hdata : a.data = some data) (hne : data ≠ [])
    (hout : a.out_pixels.isSome = true) (hwidth : a.width.isSome = true)
    (hheight : a.height.isSome = true) (hstride : a.stride_bytes.isSome = true)
    (hjp2 : is_jp2 data = false) (hj2k : is_j2k_codestream data = false) :
    (decode_j2k_rgba8_from_memory ext s a).ret = false ∧
    (decode_j2k_rgba8_from_memory ext s a).state.last_j2k_error ≠ "" ∧
    (decode_j2k_rgba8_from_memory ext s a).calls = [] ∧
    (decode_j2k_rgba8_from_memory ext s a).pixels = [] ∧
    (decode_j2k_rgba8_from_memory ext s a).state.j2k_allocated_ptrs = s.j2k_allocated_ptrs ∧
    (decode_j2k_rgba8_from_memory ext s a).state.freed = s.freed := by
  have hlen : (data.length == 0) = false := by
    cases data with
    | nil => exact absurd rfl hne
    | cons _ _ => rfl
  have hmsg : snprintf512 "Input is not JP2 or J2K codestream (signature mismatch)." ≠ "" := by
    decide
  obtain ⟨v1, h1⟩ := Option.isSome_iff_exists.mp hout
  obtain ⟨v2, h2⟩ := Option.isSome_iff_exists.mp hwidth
  obtain ⟨v3, h3⟩ := Option.isSome_iff_exists.mp hheight
  obtain ⟨v4, h4⟩ := Option.isSome_iff_exists.mp hstride
  simp [decode_j2k_rgba8_from_memory, hdata, hlen, h1, h2, h3, h4, hjp2, hj2k,
    set_error, clear_error]
  exact hmsg

/-- Witness of C9: an input starting with the PNG magic bytes is rejected without any
external call, whatever the collaborators would have answered. -/
theorem decode_rejects_unrecognized_witness :
    (decode_j2k_rgba8_from_memory external_2x2 state_three_buffers args_png).ret = false ∧
    (decode_j2k_rgba8_from_memory external_2x2 state_three_buffers args_png).calls = [] :=
  ⟨(decode_rejects_unrecognized external_2x2 state_three_buffers args_png
      [0x89, 0x50, 0x4E, 0x47] rfl (by decide) rfl rfl rfl rfl (by decide) (by decide)).1,
   (decode_rejects_unrecognized external_2x2 state_three_buffers args_png
      [0x89, 0x50, 0x4E, 0x47] rfl (by decide) rfl rfl rfl rfl (by decide) (by decide)).2.2.1⟩

/-- C10. Full-resolution 8-bit RGB scenario: for a `w` by `h` image (`w > 0`, `h > 0`, pixel
count within the range of the `int` index of the code) with exactly 3 components, each
8-bit unsigned at full resolution with `w * h` samples in `[0, 255]`, the normalizer
selects the fast path, writes `4 * w * h` bytes, the bytes of pixel `(x, y)` are
`R[y * w + x], G[y * w + x], B[y * w + x], 255`, and every 4th byte is 255. -/
theorem rgb8_full_res_scenario (image : opj_image_t) (w h : Nat)
    (cr cg cb : opj_image_comp_t) (hw : 0 < w) (hh : 0 < h)
    (hfit : (w : Int) * (h : Int) ≤ INT_MAX) (hn : image.numcomps = 3)
    (hcomps : image.comps = [cr, cg, cb]) (hr : rgb8_comp w h cr) (hg : rgb8_comp w h cg)
    (hb : rgb8_comp w h cb) :
    fast_path image (w : Int) (h : Int) = true ∧
    normalize_rgba8 image (w : Int) (h : Int) = normalize_fast image (w : Int) (h : Int) ∧
    (normalize_rgba8 image (w : Int) (h : Int)).length = 4 * (w * h) ∧
    (∀ x y : Nat, x < w → y < h →
      pixel_at (normalize_rgba8 image (w : Int) (h : Int)) w x y =
        [sample_byte cr (y * w + x), sample_byte cg (y * w + x),
         sample_byte cb (y * w + x), 255]) ∧
    (∀ i : Nat, i < w * h →
      (normalize_rgba8 image (w : Int) (h : Int))[4 * i + 3]? = some 255) := by
  have hcount : comps_of image = 3 := by unfold comps_of; rw [hn]; decide
  have hgray : is_gray image = false := by unfold is_gray; rw [hcount]; decide
  have halpha : alpha_comp image = none := by unfold alpha_comp; rw [hcount]; rfl
  have h0 : comp_at image 0 = cr := by unfold comp_at; rw [hcomps]; rfl
  have h1 : comp_at image 1 = cg := by unfold comp_at; rw [hcomps]; rfl
  have h2 : comp_at image 2 = cb := by unfold comp_at; rw [hcomps]; rfl
  have hw1 : (1 : Int) ≤ w := by exact_mod_cast hw
  have hh1 : (1 : Int) ≤ h := by exact_mod_cast hh
  have hfit2 : (w : Int) * (h : Int) ≤ 2147483647 := hfit
  have hwmax : (w : Int) ≤ 2147483647 :=
    le_trans (le_mul_of_one_le_right (Int.ofNat_nonneg w) hh1) hfit2
  have hhmax : (h : Int) ≤ 2147483647 :=
    le_trans (le_mul_of_one_le_left (Int.ofNat_nonneg h) hw1) hfit2
  have hfast : fast_path image (w : Int) (h : Int) = true := by
    unfold fast_path
    rw [hgray, if_neg Bool.false_ne_true, halpha, hcount, h0, h1, h2,
      full_res_rgb8 w h cr hwmax hhmax hr, full_res_rgb8 w h cg hwmax hhmax hg,
      full_res_rgb8 w h cb hwmax hhmax hb]
    rfl
  have hnorm : normalize_rgba8 image (w : Int) (h : Int) =
      normalize_fast image (w : Int) (h : Int) := by
    unfold normalize_rgba8
    rw [hfast, if_pos rfl]
  have hpix : ∀ x y : Nat, x < w → y < h →
      fast_pixel image (x : Int) (y : Int) =
        [sample_byte cr (y * w + x), sample_byte cg (y * w + x),
         sample_byte cb (y * w + x), 255] := by
    intro x y hx hy
    unfold fast_pixel
    rw [if_neg (by rw [hgray]; exact Bool.false_ne_true)]
    dsimp only
    rw [h0, h1, h2, halpha, fast_sample_u8_rgb8 w h cr hfit hr x y hx hy,
      fast_sample_u8_rgb8 w h cg hfit hg x y hx hy, fast_sample_u8_rgb8 w h cb hfit hb x y hx hy]
  have hat : ∀ x y : Nat, x < w → y < h →
      pixel_at (normalize_rgba8 image (w : Int) (h : Int)) w x y =
        [sample_byte cr (y * w + x), sample_byte cg (y * w + x),
         sample_byte cb (y * w + x), 255] := by
    intro x y hx hy
    have hp := pixel_at_write_pixels (fast_pixel image) (w : Int) (h : Int)
      (length_fast_pixel image) x y (by rw [Int.toNat_natCast]; exact hx)
      (by rw [Int.toNat_natCast]; exact hy)
    rw [Int.toNat_natCast] at hp
    rw [hnorm, normalize_fast, hp, hpix x y hx hy]
  refine ⟨hfast, hnorm, ?_, hat, ?_⟩
  · rw [hnorm, normalize_fast, length_write_pixels _ _ _ (length_fast_pixel image),
      Int.toNat_natCast, Int.toNat_natCast]
  · intro i hi
    have hx : i % w < w := Nat.mod_lt i hw
    have hy : i / w < h := Nat.div_lt_of_lt_mul hi
    have hidx : i / w * w + i % w = i := Nat.div_add_mod' i w
    have hget := getElem?_of_pixel_at _ w (i % w) (i / w) _ (hat (i % w) (i / w) hx hy) 3
      (by decide)
    rw [hidx] at hget
    rw [hget]
    rfl

/-- Witness of C10: the 2 by 2 image with a red, a green, a blue and a white pixel. -/
theorem rgb8_full_res_scenario_witness :
    fast_path image_2x2_rgb 2 2 = true ∧
    normalize_rgba8 image_2x2_rgb 2 2 =
      [255, 0, 0, 255, 0, 255, 0, 255, 0, 0, 255, 255, 255, 255, 255, 255] ∧
    (∀ i : Nat, i < 2 * 2 → (normalize_rgba8 image_2x2_rgb 2 2)[4 * i + 3]? = some 255) :=
  ⟨(rgb8_full_res_scenario image_2x2_rgb 2 2 (plane_2x2 [255, 0, 0, 255])
      (plane_2x2 [0, 255, 0, 255]) (plane_2x2 [0, 0, 255, 255]) (by decide) (by decide)
      (by decide) rfl rfl (by decide) (by decide) (by decide)).1,
   by decide,
   (rgb8_full_res_scenario image_2x2_rgb 2 2 (plane_2x2 [255, 0, 0, 255])
      (plane_2x2 [0, 255, 0, 255]) (plane_2x2 [0, 0, 255, 255]) (by decide) (by decide)
      (by decide) rfl rfl (by decide) (by decide) (by decide)).2.2.2.2⟩

/-- C11. Opaque alpha default: for an image with exactly 1 or exactly 3 components, the
pixel written by the fast path and the pixel written by the slow path both end in the alpha
byte 255, whatever the precision, signedness and subsampling of the components; hence in
the normalized buffer of a `w` by `h` output the byte at offset `4 * x + 3` of row `y`
(index `4 * (y * w + x) + 3`) is 255 for every pixel. -/
theorem alpha_opaque_default (image : opj_image_t) (w h : Int)
    (hn : image.numcomps = 1 ∨ image.numcomps = 3) :
    (∀ x y : Int, (fast_pixel image x y)[3]? = some 255 ∧
      (slow_pixel image x y)[3]? = some 255) ∧
    (∀ x y : Nat, x < w.toNat → y < h.toNat →
      (normalize_rgba8 image w h)[4 * (y * w.toNat + x) + 3]? = some 255) := by
  have hc : comps_of image = 1 ∨ comps_of image = 3 := by
    unfold comps_of
    rcases hn with h1 | h3
    · left; rw [h1]; decide
    · right; rw [h3]; decide
  have h2 : ¬ comps_of image = 2 := by omega
  have h4 : ¬ comps_of image ≥ 4 := by omega
  have hpx : ∀ x y : Int, (fast_pixel image x y)[3]? = some 255 ∧
      (slow_pixel image x y)[3]? = some 255 := by
    intro x y
    constructor
    · rw [fast_pixel_channels, channel_map_spec_alpha, if_neg h2, if_neg h4]
    · rw [slow_pixel_channels, channel_map_spec_alpha, if_neg h2, if_neg h4]
  refine ⟨hpx, ?_⟩
  intro x y hx hy
  rw [getElem?_of_pixel_at _ w.toNat x y _ (normalize_rgba8_pixel image w h x y hx hy) 3
    (by decide)]
  split
  · exact (hpx x y).1
  · exact (hpx x y).2

/-- Witness of C11: the 2 by 2 gray image; the fourth byte of each of its pixels is 255. -/
theorem alpha_opaque_default_witness :
    (normalize_rgba8 image_2x2_gray 2 2)[4 * (1 * (2 : Int).toNat + 1) + 3]? = some 255 ∧
    normalize_rgba8 image_2x2_gray 2 2 =
      [0, 0, 0, 255, 85, 85, 85, 255, 170, 170, 170, 255, 255, 255, 255, 255] :=
  ⟨(alpha_opaque_default image_2x2_gray 2 2 (Or.inl rfl)).2 1 1 (by decide) (by decide),
   by decide⟩

/-- C12. Channel mapping by component count: on both paths the four bytes of each pixel are
the channel mapping of the specification (R, G, B from component 0 for 1 or 2 components,
from components 0, 1, 2 for 3 or more; alpha from component 1 for exactly 2 components and
from component 3 for 4 or more), each byte being the scaled sample of that component; and
two images with the same component count and the same components 0 to 3 normalize to the
same buffer. -/
theorem channel_mapping (image : opj_image_t) (w h : Int) :
    (∀ x y : Int, fast_pixel image x y =
      channel_map_spec (fun c => fast_sample_u8 c (make_scale_params c) x y) image) ∧
    (∀ x y : Int, slow_pixel image x y =
      channel_map_spec (fun c => sample_comp_u8 c (make_scale_params c) x y) image) ∧
    (∀ image2 : opj_image_t, image2.numcomps = image.numcomps →
      image2.comps.take 4 = image.comps.take 4 →
      normalize_rgba8 image2 w h = normalize_rgba8 image w h) := by
  refine ⟨fast_pixel_channels image, slow_pixel_channels image, ?_⟩
  intro image2 hnum htake
  have hc : comps_of image2 = comps_of image := by unfold comps_of; rw [hnum]
  have hcomp : ∀ i : Nat, i < 4 → comp_at image2 i = comp_at image i :=
    comp_at_eq_of_take image image2 htake
  unfold normalize_rgba8 normalize_fast normalize_slow
  rw [fast_path_congr image image2 w h hc hcomp]
  have hfastpx : fast_pixel image2 = fast_pixel image := by
    funext x y
    rw [fast_pixel_channels, fast_pixel_channels, channel_map_spec_congr _ image image2 hc hcomp]
  have hslowpx : slow_pixel image2 = slow_pixel image := by
    funext x y
    rw [slow_pixel_channels, slow_pixel_channels, channel_map_spec_congr _ image image2 hc hcomp]
  rw [hfastpx, hslowpx]

/-- Witness of C12: two five-component images that differ only in the fifth component. -/
theorem channel_mapping_witness :
    normalize_rgba8 (image_2x2_five [9, 9, 9, 9]) 2 2 =
      normalize_rgba8 (image_2x2_five [1, 2, 3, 4]) 2 2 ∧
    normalize_rgba8 (image_2x2_five [1, 2, 3, 4]) 2 2 =
      [255, 0, 0, 10, 0, 255, 0, 20, 0, 0, 255, 30, 255, 255, 255, 40] :=
  ⟨(channel_mapping (image_2x2_five [1, 2, 3, 4]) 2 2).2.2 (image_2x2_five [9, 9, 9, 9]) rfl rfl,
   by decide⟩

/-- C13. Slow-path sampling stays in bounds: for a component of width `cw ≥ 1` and height
`ch ≥ 1` whose sample count is within the range of the `int` index of the code, and output
coordinates `x ≥ 0`, `y ≥ 0`, `sample_comp_u8` reads the sample array at index
`cy * cw + cx` with `cx = min (x / dx) (cw - 1)` and `cy = min (y / dy) (ch - 1)` (a factor
of 0 treated as 1), and that index lies in `[0, cw * ch)`. -/
theorem sample_comp_in_bounds (comp : opj_image_comp_t) (sp : ScaleParams) (x y : Int)
    (hw : 1 ≤ comp.w) (hh : 1 ≤ comp.h) (hfit : (comp.w : Int) * (comp.h : Int) ≤ INT_MAX)
    (hdx : comp.dx < 4294967296) (hdy : comp.dy < 4294967296)
    (hx0 : 0 ≤ x) (hx : x ≤ INT_MAX) (hy0 : 0 ≤ y) (hy : y ≤ INT_MAX) :
    sample_comp_idx comp x y =
      clamped_coord_spec y comp.dy comp.h * (comp.w : Int) + clamped_coord_spec x comp.dx comp.w ∧
    0 ≤ sample_comp_idx comp x y ∧
    sample_comp_idx comp x y < (comp.w : Int) * (comp.h : Int) ∧
    sample_comp_u8 comp sp x y =
      scale_to_u8 (comp.data.getD (clamped_coord_spec y comp.dy comp.h * (comp.w : Int) +
        clamped_coord_spec x comp.dx comp.w).toNat 0) sp := by
  have hfit2 : (comp.w : Int) * (comp.h : Int) ≤ 2147483647 := hfit
  have hx2 : x ≤ 2147483647 := hx
  have hy2 : y ≤ 2147483647 := hy
  have hw1 : (1 : Int) ≤ comp.w := by exact_mod_cast hw
  have hh1 : (1 : Int) ≤ comp.h := by exact_mod_cast hh
  have hwmax : (comp.w : Int) ≤ 2147483647 :=
    le_trans (le_mul_of_one_le_right (Int.ofNat_nonneg _) hh1) hfit2
  have hhmax : (comp.h : Int) ≤ 2147483647 :=
    le_trans (le_mul_of_one_le_left (Int.ofNat_nonneg _) hw1) hfit2
  obtain ⟨hcx0, hcx1⟩ := clamped_coord_spec_bounds x comp.dx comp.w hx0 hw
  obtain ⟨hcy0, hcy1⟩ := clamped_coord_spec_bounds y comp.dy comp.h hy0 hh
  generalize hcx : clamped_coord_spec x comp.dx comp.w = cx at *
  generalize hcy : clamped_coord_spec y comp.dy comp.h = cy at *
  have hmul0 : 0 ≤ cy * (comp.w : Int) := mul_nonneg hcy0 (by linarith)
  have hmul1 : cy * (comp.w : Int) + (comp.w : Int) ≤ (comp.w : Int) * (comp.h : Int) := by
    nlinarith
  have hidx : sample_comp_idx comp x y = cy * (comp.w : Int) + cx := by
    unfold sample_comp_idx
    dsimp only
    rw [clamp_div_coord x comp.dx comp.w hx0 hx2 hdx hw hwmax,
      clamp_div_coord y comp.dy comp.h hy0 hy2 hdy hh hhmax, hcx, hcy,
      u32_to_int_natCast comp.w hwmax]
    have e1 : mul32 cy (comp.w : Int) = cy * (comp.w : Int) :=
      wrap32_of_range _ (by linarith) (by linarith)
    rw [e1]
    exact wrap32_of_range _ (by linarith) (by linarith)
  refine ⟨hidx, by rw [hidx]; linarith, by rw [hidx]; linarith, ?_⟩
  rw [sample_comp_u8_reads_idx, hidx, read_sample, if_neg (by linarith)]

/-- Witness of C13: the 3 by 2 chroma plane of a 5 by 3 image, sampled at the last output
pixel `(4, 2)`, is read at index `1 * 3 + 2 = 5`. -/
theorem sample_comp_in_bounds_witness :
    sample_comp_idx plane_subsampled 4 2 =
      clamped_coord_spec 2 2 2 * 3 + clamped_coord_spec 4 2 3 ∧
    sample_comp_idx plane_subsampled 4 2 = 5 :=
  ⟨(sample_comp_in_bounds plane_subsampled {} 4 2 (by decide) (by decide) (by decide)
      (by decide) (by decide) (by decide) (by decide) (by decide) (by decide)).1,
   by decide⟩

/-- C14. Stream read: on a stream whose data is set (with at least `size` bytes) and whose
cursor is at most `size`, a request of `n` bytes returns `k = min n (size - pos)`, stores
exactly the `k` bytes `data[pos .. pos + k)` and moves the cursor to `pos + k`; at the end
of the data it returns 0 and leaves the stream as it was; when the stream pointer or its
data pointer is null it returns `(OPJ_SIZE_T) -1` and changes nothing. -/
theorem mem_read_spec (ms : MemStream) (bytes : List Nat) (n : Nat)
    (hdata : ms.data = some bytes) (hlen : ms.size ≤ bytes.length)
    (hpos : ms.pos ≤ ms.size) (hsize : ms.size < 18446744073709551616) :
    (mem_read n (some ms)).ret = min n (ms.size - ms.pos) ∧
    (mem_read n (some ms)).buffer = (bytes.drop ms.pos).take (min n (ms.size - ms.pos)) ∧
    (mem_read n (some ms)).buffer.length = min n (ms.size - ms.pos) ∧
    (mem_read n (some ms)).stream =
      some { ms with pos := ms.pos + min n (ms.size - ms.pos) } ∧
    (ms.pos = ms.size → (mem_read n (some ms)).ret = 0 ∧
      (mem_read n (some ms)).stream = some ms) ∧
    mem_read n none = { ret := SIZE_T_MINUS_ONE, buffer := [], stream := none } ∧
    mem_read n (some { ms with data := none }) =
      { ret := SIZE_T_MINUS_ONE, buffer := [], stream := some { ms with data := none } } := by
  obtain ⟨d, sz, ps⟩ := ms
  dsimp only at hdata hlen hpos hsize ⊢
  subst hdata
  have hrem : size_sub sz ps = sz - ps := size_sub_exact _ _ hpos hsize
  have hmain : (mem_read n (some { data := some bytes, size := sz, pos := ps })).ret =
        min n (sz - ps) ∧
      (mem_read n (some { data := some bytes, size := sz, pos := ps })).buffer =
        (bytes.drop ps).take (min n (sz - ps)) ∧
      (mem_read n (some { data := some bytes, size := sz, pos := ps })).stream =
        some { data := some bytes, size := sz, pos := ps + min n (sz - ps) } := by
    simp only [mem_read, hrem]
    by_cases hgt : n > sz - ps
    · have hmin : min n (sz - ps) = sz - ps := by omega
      rw [if_pos hgt, hmin]
      by_cases hk : sz - ps > 0
      · rw [if_pos hk]
        refine ⟨rfl, range_map_getD_eq_take_drop bytes ps _ (by omega), ?_⟩
        rw [size_add_exact _ _ (by omega)]
      · rw [if_neg hk]
        have hz : sz - ps = 0 := by omega
        rw [hz]
        exact ⟨rfl, by simp, rfl⟩
    · have hmin : min n (sz - ps) = n := by omega
      rw [if_neg hgt, hmin]
      by_cases hk : n > 0
      · rw [if_pos hk]
        refine ⟨rfl, range_map_getD_eq_take_drop bytes ps _ (by omega), ?_⟩
        rw [size_add_exact _ _ (by omega)]
      · rw [if_neg hk]
        have hz : n = 0 := by omega
        rw [hz]
        exact ⟨rfl, by simp, rfl⟩
  refine ⟨hmain.1, hmain.2.1, ?_, hmain.2.2, ?_, rfl, rfl⟩
  · rw [hmain.2.1, List.length_take, List.length_drop]
    omega
  · intro hend
    have hz : min n (sz - ps) = 0 := by omega
    rw [hmain.1, hmain.2.2, hz]
    exact ⟨rfl, rfl⟩

/-- Witness of C14: reading 3 bytes from the five-byte stream at cursor 1. -/
theorem mem_read_spec_witness :
    (mem_read 3 (some stream_five)).ret = min 3 (stream_five.size - stream_five.pos) ∧
    (mem_read 3 (some stream_five)).buffer = [20, 30, 40] :=
  ⟨(mem_read_spec stream_five [10, 20, 30, 40, 50] 3 rfl (by decide) (by decide)
      (by decide)).1,
   by decide⟩

/-- C15. Stream seek: for a stream and an absolute position `p` (an `OPJ_OFF_T`), `mem_seek`
fails and leaves the stream unchanged when `p` is negative or greater than `size`;
otherwise it succeeds and sets the cursor to exactly `p`, whatever the previous cursor
was, backward moves included. On a null stream it fails. -/
theorem mem_seek_spec (ms : MemStream) (p : Int)
    (hp0 : -9223372036854775808 ≤ p) (hp1 : p < 9223372036854775808) :
    mem_seek p (some ms) =
      (if p < 0 ∨ p > (ms.size : Int) then (false, some ms)
       else (true, some { ms with pos := p.toNat })) ∧
    (∀ q : Nat, (mem_seek p (some { ms with pos := q })).1 = (mem_seek p (some ms)).1 ∧
      ((mem_seek p (some ms)).1 = true →
        (mem_seek p (some { ms with pos := q })).2 = (mem_seek p (some ms)).2)) ∧
    mem_seek p none = (false, none) := by
  have key : ∀ m : MemStream, m.size = ms.size → mem_seek p (some m) =
      (if p < 0 ∨ p > (ms.size : Int) then (false, some m)
       else (true, some { m with pos := p.toNat })) := by
    intro m hm
    simp only [mem_seek]
    by_cases hneg : p < 0
    · rw [if_pos hneg, if_pos (Or.inl hneg)]
    · have hcast : ((int_to_size p : Nat) : Int) = p := int_to_size_exact p (by omega) hp1
      have hnat : int_to_size p = p.toNat := by omega
      rw [if_neg hneg, hnat, hm]
      by_cases hgt : p > (ms.size : Int)
      · rw [if_pos (by omega), if_pos (Or.inr hgt)]
      · rw [if_neg (by omega), if_neg (by omega)]
  refine ⟨key ms rfl, ?_, rfl⟩
  intro q
  rw [key ms rfl, key { ms with pos := q } rfl]
  by_cases hc : p < 0 ∨ p > (ms.size : Int)
  · rw [if_pos hc, if_pos hc]
    exact ⟨rfl, fun h => absurd h Bool.false_ne_true⟩
  · rw [if_neg hc, if_neg hc]
    exact ⟨rfl, fun _ => rfl⟩

/-- Witness of C15: seeking the five-byte stream at cursor 1 back to 0 and to the end. -/
theorem mem_seek_spec_witness :
    mem_seek 0 (some stream_five) = (true, some { stream_five with pos := 0 }) ∧
    mem_seek 5 (some stream_five) = (true, some { stream_five with pos := 5 }) ∧
    mem_seek 6 (some stream_five) = (false, some stream_five) :=
  ⟨(mem_seek_spec stream_five 0 (by decide) (by decide)).1,
   by decide, by decide⟩

/-- C16. Stream skip: on a stream with cursor at most `size`, `mem_skip` of a count `n` (an
`OPJ_OFF_T`) returns `n` and advances the cursor by exactly `n` when `0 < n ≤ size - pos`,
and in every other case returns -1 and leaves the stream unchanged; so the result differs
from -1 if and only if `0 < n ≤ size - pos`. -/
theorem mem_skip_spec (ms : MemStream) (n : Int) (hpos : ms.pos ≤ ms.size)
    (hsize : ms.size < 18446744073709551616)
    (hn0 : -9223372036854775808 ≤ n) (hn1 : n < 9223372036854775808) :
    mem_skip n (some ms) =
      (if 0 < n ∧ n ≤ (ms.size : Int) - (ms.pos : Int)
       then (n, some { ms with pos := ms.pos + n.toNat })
       else (-1, some ms)) ∧
    ((mem_skip n (some ms)).1 ≠ -1 ↔ (0 < n ∧ n ≤ (ms.size : Int) - (ms.pos : Int))) := by
  have hrem : size_sub ms.size ms.pos = ms.size - ms.pos := size_sub_exact _ _ hpos hsize
  have hfirst : mem_skip n (some ms) =
      (if 0 < n ∧ n ≤ (ms.size : Int) - (ms.pos : Int)
       then (n, some { ms with pos := ms.pos + n.toNat })
       else (-1, some ms)) := by
    simp only [mem_skip, hrem]
    by_cases hle : n ≤ 0
    · have hneg : ¬ (0 < n ∧ n ≤ (ms.size : Int) - (ms.pos : Int)) := by omega
      rw [if_pos hle, if_neg hneg]
    · obtain ⟨k, rfl⟩ := Int.eq_ofNat_of_zero_le (by omega : 0 ≤ n)
      have hcast : ((int_to_size (k : Int) : Nat) : Int) = (k : Int) :=
        int_to_size_exact _ (by omega) hn1
      have hnat : int_to_size (k : Int) = k := by omega
      rw [if_neg hle, hnat, Int.toNat_natCast]
      by_cases hgt : k > ms.size - ms.pos
      · have hneg : ¬ (0 < (k : Int) ∧ (k : Int) ≤ (ms.size : Int) - (ms.pos : Int)) := by
          omega
        rw [if_pos hgt, if_neg hneg]
      · have hpos2 : 0 < (k : Int) ∧ (k : Int) ≤ (ms.size : Int) - (ms.pos : Int) := by
          omega
        have hsum : ms.pos + k < 18446744073709551616 := by omega
        rw [if_neg hgt, if_pos hpos2, size_add_exact _ _ hsum]
  refine ⟨hfirst, ?_⟩
  rw [hfirst]
  by_cases hc : 0 < n ∧ n ≤ (ms.size : Int) - (ms.pos : Int)
  · rw [if_pos hc]
    refine ⟨fun _ => hc, fun _ => ?_⟩
    show n ≠ -1
    omega
  · rw [if_neg hc]
    exact ⟨fun h => absurd rfl h, fun h => absurd h hc⟩

/-- Witness of C16: skipping 4 bytes of the five-byte stream at cursor 1 reaches the end;
skipping 5 fails. -/
theorem mem_skip_spec_witness :
    mem_skip 4 (some stream_five) = (4, some { stream_five with pos := 5 }) ∧
    mem_skip 5 (some stream_five) = (-1, some stream_five) :=
  ⟨(mem_skip_spec stream_five 4 (by decide) (by decide) (by decide) (by decide)).1,
   by decide⟩


/-- C17, as stated, fails: a failing call can leave the prior values in the output
parameters.  A J2K call with a null `data` and the outputs holding 7 returns false with all
four outputs still 7; an HDR call whose file cannot be opened returns false with the
pointer, width and height still 7; an HDR call whose pixel read fails returns false with
the pointer still 7 and the width and height of the header. -/
theorem failure_leaves_stale_outputs :
    (decode_j2k_rgba8_from_memory external_2x2 state_three_buffers args_null_data).ret
      = false ∧
    (decode_j2k_rgba8_from_memory external_2x2 state_three_buffers args_null_data).out_pixels
      = some 7 ∧
    (decode_j2k_rgba8_from_memory external_2x2 state_three_buffers args_null_data).width
      = some 7 ∧
    (decode_j2k_rgba8_from_memory external_2x2 state_three_buffers args_null_data).height
      = some 7 ∧
    (decode_j2k_rgba8_from_memory external_2x2 state_three_buffers
      args_null_data).stride_bytes = some 7 ∧
    (load_hdr_rgba hdr_unreadable state_three_buffers 7 7 7).ret = false ∧
    (load_hdr_rgba hdr_unreadable state_three_buffers 7 7 7).out_pixels = 7 ∧
    (load_hdr_rgba hdr_unreadable state_three_buffers 7 7 7).width = 7 ∧
    (load_hdr_rgba hdr_unreadable state_three_buffers 7 7 7).height = 7 ∧
    (load_hdr_rgba hdr_bad_pixels state_three_buffers 7 7 7).ret = false ∧
    (load_hdr_rgba hdr_bad_pixels state_three_buffers 7 7 7).out_pixels = 7 ∧
    (load_hdr_rgba hdr_bad_pixels state_three_buffers 7 7 7).width = 1 ∧
    (load_hdr_rgba hdr_bad_pixels state_three_buffers 7 7 7).height = 1 := by
  decide

/-- C17, amended. Outputs on failure, per entry point, for non-null output parameters
holding arbitrary prior values.  J2K: a failing call whose arguments pass validation
(non-null, non-empty data) leaves the pointer, width, height and stride equal to 0; a call
with null or empty data fails and leaves the four outputs untouched.  HDR: a failing call
never stores into the pixel pointer, and leaves in the width and height either the prior
values (always so when the file cannot be opened) or the values stored by the header
reader.  EXR: a failing call leaves the pixel pointer null, and when it failed by an
exception the width and height equal to 0. -/
theorem failure_outputs (extj : OpjExternal) (exth : HdrExternal) (exte : ExrExternal)
    (s : NativeState) (a : DecodeArgs) (o : Nat) (w h : Int) :
    ((∃ data : List Nat, a.data = some data ∧ data ≠ []) →
      a.out_pixels.isSome = true → a.width.isSome = true → a.height.isSome = true →
      a.stride_bytes.isSome = true →
      (decode_j2k_rgba8_from_memory extj s a).ret = false →
      (decode_j2k_rgba8_from_memory extj s a).out_pixels = some 0 ∧
      (decode_j2k_rgba8_from_memory extj s a).width = some 0 ∧
      (decode_j2k_rgba8_from_memory extj s a).height = some 0 ∧
      (decode_j2k_rgba8_from_memory extj s a).stride_bytes = some 0) ∧
    ((a.data = none ∨ a.data = some []) →
      (decode_j2k_rgba8_from_memory extj s a).ret = false ∧
      (decode_j2k_rgba8_from_memory extj s a).out_pixels = a.out_pixels ∧
      (decode_j2k_rgba8_from_memory extj s a).width = a.width ∧
      (decode_j2k_rgba8_from_memory extj s a).height = a.height ∧
      (decode_j2k_rgba8_from_memory extj s a).stride_bytes = a.stride_bytes) ∧
    ((load_hdr_rgba exth s o w h).ret = false →
      (load_hdr_rgba exth s o w h).out_pixels = o ∧
      ((load_hdr_rgba exth s o w h).width = w ∨
        exth.header_width = some (load_hdr_rgba exth s o w h).width) ∧
      ((load_hdr_rgba exth s o w h).height = h ∨
        exth.header_height = some (load_hdr_rgba exth s o w h).height) ∧
      (exth.fopen_ok = false →
        (load_hdr_rgba exth s o w h).width = w ∧ (load_hdr_rgba exth s o w h).height = h)) ∧
    ((load_exr_rgba exte s o w h).ret = false →
      (load_exr_rgba exte s o w h).out_pixels = 0 ∧
      ((exte.open_exception ≠ none ∨ exte.read_exception ≠ none) →
        (load_exr_rgba exte s o w h).width = 0 ∧ (load_exr_rgba exte s o w h).height = 0)) := by
  refine ⟨?_, ?_, ?_, ?_⟩
  · rintro ⟨data, hdata, hne⟩ h1 h2 h3 h4 hret
    rcases decode_j2k_valid extj s a data hdata hne h1 h2 h3 h4 with hf | hs
    · exact ⟨hf.2.2.2.2.2.2.1, hf.2.2.2.2.2.2.2.1, hf.2.2.2.2.2.2.2.2.1,
        hf.2.2.2.2.2.2.2.2.2⟩
    · rw [hs.1] at hret
      exact absurd hret (by decide)
  · intro hd
    have hinv : a.data = none ∨ a.data = some [] ∨ a.out_pixels = none ∨ a.width = none ∨
        a.height = none ∨ a.stride_bytes = none := by
      rcases hd with hd | hd
      · exact Or.inl hd
      · exact Or.inr (Or.inl hd)
    rw [decode_j2k_invalid extj s a hinv]
    exact ⟨rfl, rfl, rfl, rfl, rfl⟩
  · intro hret
    rcases load_hdr_exits exth s o w h _ rfl with hf | hs
    · obtain ⟨-, ho, -, -, -, hw, hh, hopen, -⟩ := hf
      refine ⟨ho, hw, hh, ?_⟩
      intro hno
      rcases hopen with hx | hx
      · exact hx.2
      · rw [hno] at hx
        exact absurd hx (by decide)
    · rw [hs.1] at hret
      exact absurd hret (by decide)
  · intro hret
    rcases load_exr_exits exte s o w h _ rfl with hf | hs
    · obtain ⟨-, ho, -, -, -, -, -, hdim⟩ := hf
      refine ⟨ho, ?_⟩
      intro hexc
      rcases hdim with hx | hx
      · exact hx.2
      · rcases hexc with he | he
        · exact absurd hx.1 he
        · exact absurd hx.2.1 he
    · rw [hs.1] at hret
      exact absurd hret (by decide)

/-- Witness of C17 (amended): a J2K call on bytes that match no signature leaves all four
outputs 0; an HDR call whose pixel read fails leaves the pointer at its prior value 7; an
EXR call whose file cannot be opened leaves the pointer null and the dimensions 0. -/
theorem failure_outputs_witness :
    ((decode_j2k_rgba8_from_memory external_2x2 state_three_buffers args_png).out_pixels
        = some 0 ∧
      (decode_j2k_rgba8_from_memory external_2x2 state_three_buffers args_png).width
        = some 0 ∧
      (decode_j2k_rgba8_from_memory external_2x2 state_three_buffers args_png).height
        = some 0 ∧
      (decode_j2k_rgba8_from_memory external_2x2 state_three_buffers args_png).stride_bytes
        = some 0) ∧
    (load_hdr_rgba hdr_bad_pixels state_three_buffers 7 7 7).out_pixels = 7 ∧
    (load_exr_rgba exr_unreadable state_three_buffers 7 7 7).out_pixels = 0 ∧
    ((load_exr_rgba exr_unreadable state_three_buffers 7 7 7).width = 0 ∧
      (load_exr_rgba exr_unreadable state_three_buffers 7 7 7).height = 0) :=
  ⟨(failure_outputs external_2x2 hdr_bad_pixels exr_unreadable state_three_buffers args_png
      7 7 7).1 ⟨[0x89, 0x50, 0x4E, 0x47], rfl, by decide⟩ rfl rfl rfl rfl (by decide),
   ((failure_outputs external_2x2 hdr_bad_pixels exr_unreadable state_three_buffers args_png
      7 7 7).2.2.1 (by decide)).1,
   ((failure_outputs external_2x2 hdr_bad_pixels exr_unreadable state_three_buffers args_png
      7 7 7).2.2.2 (by decide)).1,
   ((failure_outputs external_2x2 hdr_bad_pixels exr_unreadable state_three_buffers args_png
      7 7 7).2.2.2 (by decide)).2 (Or.inl (by decide))⟩

/-- C18. Success postcondition of the J2K decode: for every input and every answer of the
external decoder and of the allocator, with the returned width in the range where the
`int` stride `width * 4` is exact, a call that returns true returns a width and a height
that are both positive, a stride equal to `width * 4`, and a non-null buffer obtained from
`malloc` for exactly `height * stride` bytes, into which the normalizer wrote exactly
`height * stride` bytes. -/
theorem decode_success_postcondition (ext : OpjExternal) (s : NativeState) (a : DecodeArgs)
    (hret : (decode_j2k_rgba8_from_memory ext s a).ret = true)
    (hfit : ∀ w : Int, (decode_j2k_rgba8_from_memory ext s a).width = some w →
      4 * w ≤ INT_MAX) :
    ∃ w h : Int, ∃ buffer : Nat,
      (decode_j2k_rgba8_from_memory ext s a).width = some w ∧
      (decode_j2k_rgba8_from_memory ext s a).height = some h ∧
      (decode_j2k_rgba8_from_memory ext s a).stride_bytes = some (w * 4) ∧
      (decode_j2k_rgba8_from_memory ext s a).out_pixels = some buffer ∧
      0 < w ∧ 0 < h ∧ buffer ≠ 0 ∧
      buffer = ext.malloc (h * (w * 4)).toNat ∧
      (decode_j2k_rgba8_from_memory ext s a).pixels = normalize_rgba8 ext.image w h ∧
      (decode_j2k_rgba8_from_memory ext s a).pixels.length = (h * (w * 4)).toNat := by
  rcases decode_j2k_args_cases a with hinv | ⟨data, hdata, hne, h1, h2, h3, h4⟩
  · rw [decode_j2k_invalid ext s a hinv] at hret
    exact absurd hret Bool.false_ne_true
  · rcases decode_j2k_valid ext s a data hdata hne h1 h2 h3 h4 with hf | hs
    · rw [hf.1] at hret
      exact absurd hret (by decide)
    · obtain ⟨-, w, h, buffer, -, hH, hw, hh, hB, hb, ho, hwidth, hheight, hstride, hpix,
        -, -, -⟩ := hs
      have hhmax : h ≤ 2147483647 := by
        rw [hH]
        exact (wrap32_range _).2
      obtain ⟨e1, e2, e3⟩ := alloc_size_exact w h hw hh (hfit w hwidth) hhmax
      refine ⟨w, h, buffer, hwidth, hheight, ?_, ho, hw, hh, hb, ?_, hpix, ?_⟩
      · rw [hstride, e1]
      · rw [hB, e2]
      · rw [hpix, length_normalize_rgba8, e3]

/-- Witness of C18: the decode of a raw codestream whose decoder yields the 2 by 2 RGB
image returns true, and the postcondition holds of it. -/
theorem decode_success_postcondition_witness :
    (decode_j2k_rgba8_from_memory external_2x2 state_three_buffers args_codestream).ret
      = true ∧
    ∃ w h : Int, ∃ buffer : Nat,
      (decode_j2k_rgba8_from_memory external_2x2 state_three_buffers args_codestream).width
        = some w ∧
      (decode_j2k_rgba8_from_memory external_2x2 state_three_buffers args_codestream).height
        = some h ∧
      (decode_j2k_rgba8_from_memory external_2x2 state_three_buffers
        args_codestream).stride_bytes = some (w * 4) ∧
      (decode_j2k_rgba8_from_memory external_2x2 state_three_buffers
        args_codestream).out_pixels = some buffer ∧
      0 < w ∧ 0 < h ∧ buffer ≠ 0 ∧
      buffer = external_2x2.malloc (h * (w * 4)).toNat ∧
      (decode_j2k_rgba8_from_memory external_2x2 state_three_buffers args_codestream).pixels
        = normalize_rgba8 external_2x2.image w h ∧
      (decode_j2k_rgba8_from_memory external_2x2 state_three_buffers
        args_codestream).pixels.length = (h * (w * 4)).toNat :=
  ⟨by decide,
   decode_success_postcondition external_2x2 state_three_buffers args_codestream
     (by decide)
     (fun w hw => by
       have e : (decode_j2k_rgba8_from_memory external_2x2 state_three_buffers
           args_codestream).width = some 2 := by decide
       rw [e] at hw
       cases hw
       decide)⟩

/-- C19. Registry atomicity of decode: for each decode entry point and every registry
state (for HDR, with an allocator that never returns an address still held in the
registry), a call that returns false leaves the registry of the family equal to its state
before the call (the HDR output buffer, when it was registered before the failing step,
has been de-registered and freed), and a call that returns true leaves it equal to the
prior state plus exactly the returned pixel pointer. -/
theorem decode_registry_atomic (extj : OpjExternal) (exth : HdrExternal)
    (exte : ExrExternal) (s : NativeState) (a : DecodeArgs) (o : Nat) (w h : Int)
    (hfresh : ∀ n : Nat, exth.malloc_buffer n ∉ s.hdr_allocated_ptrs) :
    ((decode_j2k_rgba8_from_memory extj s a).ret = false →
      (decode_j2k_rgba8_from_memory extj s a).state.j2k_allocated_ptrs =
        s.j2k_allocated_ptrs ∧
      (decode_j2k_rgba8_from_memory extj s a).state.freed = s.freed) ∧
    ((decode_j2k_rgba8_from_memory extj s a).ret = true →
      ∃ buffer : Nat, (decode_j2k_rgba8_from_memory extj s a).out_pixels = some buffer ∧
        (decode_j2k_rgba8_from_memory extj s a).state.j2k_allocated_ptrs =
          insert buffer s.j2k_allocated_ptrs) ∧
    ((load_hdr_rgba exth s o w h).ret = false →
      (load_hdr_rgba exth s o w h).state.hdr_allocated_ptrs = s.hdr_allocated_ptrs ∧
      ((load_hdr_rgba exth s o w h).state.freed = s.freed ∨
        ∃ n : Nat, exth.malloc_buffer n ≠ 0 ∧
          exth.malloc_buffer n ∈ (load_hdr_rgba exth s o w h).state.freed)) ∧
    ((load_hdr_rgba exth s o w h).ret = true →
      (load_hdr_rgba exth s o w h).state.hdr_allocated_ptrs =
        insert (load_hdr_rgba exth s o w h).out_pixels s.hdr_allocated_ptrs) ∧
    ((load_exr_rgba exte s o w h).ret = false →
      (load_exr_rgba exte s o w h).state.exr_allocated_ptrs = s.exr_allocated_ptrs ∧
      (load_exr_rgba exte s o w h).state.freed = s.freed) ∧
    ((load_exr_rgba exte s o w h).ret = true →
      (load_exr_rgba exte s o w h).state.exr_allocated_ptrs =
        insert (load_exr_rgba exte s o w h).out_pixels s.exr_allocated_ptrs) := by
  refine ⟨?_, ?_, ?_, ?_, ?_, ?_⟩
  · intro hret
    rcases decode_j2k_exits extj s a with hf | hs
    · exact ⟨hf.2.1, hf.2.2.1⟩
    · rw [hs.1] at hret
      exact absurd hret (by decide)
  · intro hret
    rcases decode_j2k_exits extj s a with hf | hs
    · rw [hf.1] at hret
      exact absurd hret (by decide)
    · obtain ⟨-, -, -, buffer, -, ho, hreg⟩ := hs
      exact ⟨buffer, ho, hreg⟩
  · intro hret
    rcases load_hdr_exits exth s o w h _ rfl with hf | hs
    · obtain ⟨-, -, -, -, -, -, -, -, hreg⟩ := hf
      rcases hreg with ⟨h1, h2⟩ | ⟨n, b, hb, hb0, hreg, hfreed⟩
      · exact ⟨h1, Or.inl h2⟩
      · subst hb
        refine ⟨?_, Or.inr ⟨n, hb0, ?_⟩⟩
        · rw [hreg]
          exact Finset.erase_insert (hfresh n)
        · rcases hfreed with hfr | ⟨m, hfr⟩
          · rw [hfr]
            exact List.mem_append_right _ (List.mem_cons_self _ _)
          · rw [hfr]
            exact List.mem_append_right _ (List.mem_cons_self _ _)
    · rw [hs.1] at hret
      exact absurd hret (by decide)
  · intro hret
    rcases load_hdr_exits exth s o w h _ rfl with hf | hs
    · rw [hf.1] at hret
      exact absurd hret (by decide)
    · obtain ⟨-, -, n, m, -, ho, hreg, -⟩ := hs
      rw [hreg, ho]
  · intro hret
    rcases load_exr_exits exte s o w h _ rfl with hf | hs
    · exact ⟨hf.2.2.2.2.2.1, hf.2.2.2.2.2.2.1⟩
    · rw [hs.1] at hret
      exact absurd hret (by decide)
  · intro hret
    rcases load_exr_exits exte s o w h _ rfl with hf | hs
    · rw [hf.1] at hret
      exact absurd hret (by decide)
    · obtain ⟨-, -, n, -, ho, hreg, -⟩ := hs
      rw [hreg, ho]

/-- Witness of C19: on a state with live buffers, an HDR call whose pixel read fails after
the output buffer was registered leaves the HDR registry as it was, and calls that succeed
add exactly the returned pointer to the registry of their family. -/
theorem decode_registry_atomic_witness :
    (load_hdr_rgba hdr_bad_pixels state_three_buffers 7 7 7).state.hdr_allocated_ptrs =
      state_three_buffers.hdr_allocated_ptrs ∧
    (∃ buffer : Nat,
      (decode_j2k_rgba8_from_memory external_2x2 state_three_buffers
        args_codestream).out_pixels = some buffer ∧
      (decode_j2k_rgba8_from_memory external_2x2 state_three_buffers
        args_codestream).state.j2k_allocated_ptrs =
          insert buffer state_three_buffers.j2k_allocated_ptrs) ∧
    (load_exr_rgba exr_2x2 state_three_buffers 7 7 7).state.exr_allocated_ptrs =
      insert (load_exr_rgba exr_2x2 state_three_buffers 7 7 7).out_pixels
        state_three_buffers.exr_allocated_ptrs :=
  ⟨((decode_registry_atomic external_2x2 hdr_bad_pixels exr_2x2 state_three_buffers
      args_codestream 7 7 7
      (fun _ => (by decide : (20480 : Nat) ∉ state_three_buffers.hdr_allocated_ptrs))).2.2.1
      (by decide)).1,
   (decode_registry_atomic external_2x2 hdr_bad_pixels exr_2x2 state_three_buffers
      args_codestream 7 7 7
      (fun _ => (by decide : (20480 : Nat) ∉ state_three_buffers.hdr_allocated_ptrs))).2.1
      (by decide),
   (decode_registry_atomic external_2x2 hdr_bad_pixels exr_2x2 state_three_buffers
      args_codestream 7 7 7
      (fun _ => (by decide : (20480 : Nat) ∉ state_three_buffers.hdr_allocated_ptrs))).2.2.2.2.2
      (by decide)⟩

/-- C20. Error slot tracks the last outcome: for each decode entry point, every prior
content of its error slot and every message passed to the codec error callback during the
call, a call that returns true leaves the slot empty, and a call that returns false leaves
it holding a non-empty message of at most 511 characters (so that it fits the 512-byte
slot with its terminating NUL). -/
theorem error_slot_tracks_outcome (extj : OpjExternal) (exth : HdrExternal)
    (exte : ExrExternal) (s : NativeState) (a : DecodeArgs) (o : Nat) (w h : Int) :
    ((decode_j2k_rgba8_from_memory extj s a).ret = true →
      (decode_j2k_rgba8_from_memory extj s a).state.last_j2k_error = "") ∧
    ((decode_j2k_rgba8_from_memory extj s a).ret = false →
      (decode_j2k_rgba8_from_memory extj s a).state.last_j2k_error ≠ "" ∧
      (decode_j2k_rgba8_from_memory extj s a).state.last_j2k_error.length ≤ 511) ∧
    ((load_hdr_rgba exth s o w h).ret = true →
      (load_hdr_rgba exth s o w h).state.last_hdr_error = "") ∧
    ((load_hdr_rgba exth s o w h).ret = false →
      (load_hdr_rgba exth s o w h).state.last_hdr_error ≠ "" ∧
      (load_hdr_rgba exth s o w h).state.last_hdr_error.length ≤ 511) ∧
    ((load_exr_rgba exte s o w h).ret = true →
      (load_exr_rgba exte s o w h).state.last_exr_error = "") ∧
    ((load_exr_rgba exte s o w h).ret = false →
      (load_exr_rgba exte s o w h).state.last_exr_error ≠ "" ∧
      (load_exr_rgba exte s o w h).state.last_exr_error.length ≤ 511) := by
  refine ⟨?_, ?_, ?_, ?_, ?_, ?_⟩
  · intro hret
    rcases decode_j2k_exits extj s a with hf | hs
    · rw [hf.1] at hret
      exact absurd hret (by decide)
    · exact hs.2.1
  · intro hret
    rcases decode_j2k_exits extj s a with hf | hs
    · exact ⟨hf.2.2.2.1, hf.2.2.2.2⟩
    · rw [hs.1] at hret
      exact absurd hret (by decide)
  · intro hret
    rcases load_hdr_exits exth s o w h _ rfl with hf | hs
    · rw [hf.1] at hret
      exact absurd hret (by decide)
    · exact hs.2.1
  · intro hret
    rcases load_hdr_exits exth s o w h _ rfl with hf | hs
    · exact ⟨hf.2.2.1, hf.2.2.2.1⟩
    · rw [hs.1] at hret
      exact absurd hret (by decide)
  · intro hret
    rcases load_exr_exits exte s o w h _ rfl with hf | hs
    · rw [hf.1] at hret
      exact absurd hret (by decide)
    · exact hs.2.1
  · intro hret
    rcases load_exr_exits exte s o w h _ rfl with hf | hs
    · exact ⟨hf.2.2.1, hf.2.2.2.1⟩
    · rw [hs.1] at hret
      exact absurd hret (by decide)

/-- Witness of C20: starting from a slot holding a stale message, a successful J2K decode
leaves the slot empty, and a decode whose `opj_decode` fails after the codec reported an
error through the callback leaves the message of the wrapper. -/
theorem error_slot_tracks_outcome_witness :
    (decode_j2k_rgba8_from_memory external_2x2 state_stale_error
      args_codestream).state.last_j2k_error = "" ∧
    ((decode_j2k_rgba8_from_memory external_decode_fails state_stale_error
      args_codestream).state.last_j2k_error ≠ "" ∧
    (decode_j2k_rgba8_from_memory external_decode_fails state_stale_error
      args_codestream).state.last_j2k_error.length ≤ 511) ∧
    (load_hdr_rgba hdr_unreadable state_stale_error 7 7 7).state.last_hdr_error ≠ "" ∧
    (load_exr_rgba exr_2x2 state_stale_error 7 7 7).state.last_exr_error = "" :=
  ⟨(error_slot_tracks_outcome external_2x2 hdr_unreadable exr_2x2 state_stale_error
      args_codestream 7 7 7).1 (by decide),
   (error_slot_tracks_outcome external_decode_fails hdr_unreadable exr_2x2 state_stale_error
      args_codestream 7 7 7).2.1 (by decide),
   ((error_slot_tracks_outcome external_2x2 hdr_unreadable exr_2x2 state_stale_error
      args_codestream 7 7 7).2.2.2.1 (by decide)).1,
   (error_slot_tracks_outcome external_2x2 hdr_unreadable exr_2x2 state_stale_error
      args_codestream 7 7 7).2.2.2.2.1 (by decide)⟩


/-- C21. Rescale never divides by zero or shifts out of range: for every component
descriptor, whatever its declared precision (0 and values whose `int` conversion is
negative included), `make_scale_params` returns parameters with `1 ≤ prec ≤ 30` and
`maxv = 2 ^ prec - 1 ≥ 1`; so the divisor `maxv` of `scale_to_u8` is never 0, and its shift
amount `prec - 1` lies in `[0, 29]`, where `1 << (prec - 1)` is `2 ^ (prec - 1)` without
loss. -/
theorem scale_params_safe (comp : opj_image_comp_t) :
    1 ≤ (make_scale_params comp).prec ∧ (make_scale_params comp).prec ≤ 30 ∧
    (make_scale_params comp).maxv = 2 ^ (make_scale_params comp).prec.toNat - 1 ∧
    1 ≤ (make_scale_params comp).maxv ∧ (make_scale_params comp).maxv ≠ 0 ∧
    sub32 (make_scale_params comp).prec 1 = (make_scale_params comp).prec - 1 ∧
    0 ≤ sub32 (make_scale_params comp).prec 1 ∧
    sub32 (make_scale_params comp).prec 1 ≤ 29 ∧
    shl32 1 (sub32 (make_scale_params comp).prec 1) =
      2 ^ ((make_scale_params comp).prec.toNat - 1) := by
  obtain ⟨n, h1, h30, hp, hm⟩ := make_scale_params_cases comp
  rw [hp, hm, Int.toNat_natCast]
  have hshl := shl32_one_pred n h1 h30
  refine ⟨by exact_mod_cast h1, by exact_mod_cast h30, rfl, ?_, ?_, ?_, ?_, ?_, hshl⟩
  · interval_cases n <;> decide
  · interval_cases n <;> decide
  · interval_cases n <;> decide
  · interval_cases n <;> decide
  · interval_cases n <;> decide

/-- C22. Stream cursor invariant: starting from a memory stream with `pos = 0`, after any
finite sequence of `mem_read`, `mem_skip` and `mem_seek` calls with arbitrary arguments,
successful or failing, the cursor satisfies `0 ≤ pos ≤ size`, so the unsigned subtraction
`size - pos` of `mem_read` and `mem_skip` does not wrap; the backing data and the size are
those the stream was created with. -/
theorem stream_cursor_invariant (data : Option (List Nat)) (size : Nat)
    (hsize : size < 18446744073709551616) (cs : List StreamCall) :
    0 ≤ (stream_after_calls (new_mem_stream data size) cs).pos ∧
    (stream_after_calls (new_mem_stream data size) cs).pos ≤ size ∧
    size_sub (stream_after_calls (new_mem_stream data size) cs).size
        (stream_after_calls (new_mem_stream data size) cs).pos =
      size - (stream_after_calls (new_mem_stream data size) cs).pos ∧
    (stream_after_calls (new_mem_stream data size) cs).data = data ∧
    (stream_after_calls (new_mem_stream data size) cs).size = size := by
  obtain ⟨h1, h2, h3⟩ := stream_after_calls_invariant cs (new_mem_stream data size)
    (Nat.zero_le size) hsize
  have h2b : (stream_after_calls (new_mem_stream data size) cs).data = data := h2
  have h3b : (stream_after_calls (new_mem_stream data size) cs).size = size := h3
  rw [h3b] at h1
  refine ⟨Nat.zero_le _, h1, ?_, h2b, h3b⟩
  rw [h3b]
  exact size_sub_exact _ _ h1 hsize

/-- Witness of C22: on a five-byte stream, a sequence with requests past the end, a
backward seek, a negative skip and a seek past the end leaves the cursor at 4. -/
theorem stream_cursor_invariant_witness :
    (stream_after_calls (new_mem_stream (some [10, 20, 30, 40, 50]) 5) calls_mixed).pos
      ≤ 5 ∧
    (stream_after_calls (new_mem_stream (some [10, 20, 30, 40, 50]) 5) calls_mixed).pos
      = 4 ∧
    (stream_after_calls (new_mem_stream (some [10, 20, 30, 40, 50]) 5) calls_mixed).data
      = some [10, 20, 30, 40, 50] :=
  ⟨(stream_cursor_invariant (some [10, 20, 30, 40, 50]) 5 (by decide) calls_mixed).2.1,
   by decide,
   (stream_cursor_invariant (some [10, 20, 30, 40, 50]) 5 (by decide) calls_mixed).2.2.2.1⟩


end Lyra
